import Mathlib

/-!
# go-archetype-kafka-processor

A shallow embedding of the HTTP facade of `config/http_config.go`
(`DefaultHTTPServer`, `RegisterEndpoint`, `Run`, `NewDefaultHTTPServer`) together
with the parts of the Go runtime it calls into (`fmt.Sprintf`, the process-wide
`http.DefaultServeMux`, `http.ListenAndServe`), and of the message pipeline that
the integration test `app_integration_test.go` drives, with the generator of
`math/rand` whose first value for seed 1 the test pins.

Go calls are modelled by explicit state passing over a `World` (the process-wide
state a call can read or change) and return an `Outcome` that tells a normal
return from a panic and from a call that never returns.
-/

namespace KafkaProcessor

/-! ## Decimal rendering: the `%d` verb of `fmt.Sprintf` and JSON integers -/

/-- The ASCII digit of a value below ten. -/
def digitChar : Nat → Char
  | 0 => '0'
  | 1 => '1'
  | 2 => '2'
  | 3 => '3'
  | 4 => '4'
  | 5 => '5'
  | 6 => '6'
  | 7 => '7'
  | 8 => '8'
  | _ => '9'

/-- Digits of `n`, most significant first, pushed in front of `acc`; `fuel` bounds the
number of digits produced. -/
def formatNatAux : Nat → Nat → List Char → List Char
  | 0, _, acc => acc
  | fuel + 1, n, acc =>
    if n < 10 then digitChar n :: acc
    else formatNatAux fuel (n / 10) (digitChar (n % 10) :: acc)

/-- Base-10 rendering of a natural number, without leading zeros. -/
def formatNat (n : Nat) : List Char := formatNatAux (n + 1) n []

/-- Base-10 rendering of an integer, as `%d` prints a Go `int` and as JSON writes an
integer: a minus sign for a negative value, then the digits. -/
def formatInt : Int → List Char
  | Int.ofNat n => formatNat n
  | Int.negSucc n => '-' :: formatNat (n + 1)

/-- Whether a character is an ASCII decimal digit. -/
def isDigitChar (c : Char) : Bool := decide (48 ≤ c.toNat) && decide (c.toNat ≤ 57)

/-- The value of an ASCII decimal digit. -/
def digitVal (c : Char) : Nat := c.toNat - 48

/-- The number a run of decimal digits denotes. -/
def digitsValue (ds : List Char) : Nat := ds.foldl (fun a c => 10 * a + digitVal c) 0

/-- Reads a JSON natural number at the head of the input: a non-empty run of digits
that has no leading zero unless it is the single digit `0`. -/
def parseNat (cs : List Char) : Option (Nat × List Char) :=
  let ds := cs.takeWhile isDigitChar
  if ds = [] then none
  else if ds.head? = some '0' ∧ ds.length ≠ 1 then none
  else some (digitsValue ds, cs.dropWhile isDigitChar)

/-- Reads a JSON integer at the head of the input: an optional minus sign and a
natural number. -/
def parseInt : List Char → Option (Int × List Char)
  | '-' :: rest => (parseNat rest).map (fun r => (-(r.1 : Int), r.2))
  | cs => (parseNat cs).map (fun r => ((r.1 : Int), r.2))

/-! ## HTTP requests, response writers and handlers -/

/-- A request as the router matches it: the method and a path that is already in
canonical form, on a host for which no host-specific pattern is registered. -/
structure Request where
  method : String
  path : String
deriving DecidableEq, Repr

/-- A request as it arrives: method, host and path of `*http.Request`. -/
structure RawRequest where
  method : String
  host : String
  path : String
deriving DecidableEq, Repr

/-- The state behind an `http.ResponseWriter`: the status line once the header has
been written, the body written so far, the `Location` header, and the panic raised by
the writer if there was one. -/
structure ResponseWriter where
  status : Option Nat
  body : String
  location : Option String := none
  fault : Option String := none
deriving DecidableEq, Repr

/-- A fresh response writer: nothing written yet. -/
def ResponseWriter.fresh : ResponseWriter := { status := none, body := "" }

/-- Models `WriteHeader(code)`: once the header is written a further call has no
effect; before that, a code outside 100..999 panics and any other code fixes the
status. -/
def ResponseWriter.WriteHeader (w : ResponseWriter) (code : Nat) : ResponseWriter :=
  if w.fault.isSome then w
  else
    match w.status with
    | some _ => w
    | none =>
      if code < 100 ∨ 999 < code then { w with fault := some "invalid WriteHeader code" }
      else { w with status := some code }

/-- Models `bodyAllowedForStatus`: no body goes with 1xx, 204 and 304. -/
def bodyAllowedForStatus (status : Nat) : Bool :=
  !(decide (100 ≤ status ∧ status ≤ 199) || decide (status = 204) || decide (status = 304))

/-- Models `Write(b)`: a write before `WriteHeader` sends status 200 first; the bytes are
dropped when the status allows no body. -/
def ResponseWriter.Write (w : ResponseWriter) (b : String) : ResponseWriter :=
  if w.fault.isSome then w
  else
    let w1 := w.WriteHeader 200
    if bodyAllowedForStatus (w1.status.getD 200) then { w1 with body := w1.body ++ b } else w1

/-- What the client receives; `aborted` when the handler panicked and the server closed
the connection without a response. -/
structure Response where
  status : Nat
  body : String
  location : Option String := none
  aborted : Bool := false
deriving DecidableEq, Repr

/-- The response sent when the handler returns: status 200 if the handler never
wrote a header. -/
def ResponseWriter.finish (w : ResponseWriter) : Response :=
  if w.fault.isSome then { status := 0, body := "", aborted := true }
  else { status := w.status.getD 200, body := w.body, location := w.location }

/-- Handler is a HTTP endpoint handler: `func(w http.ResponseWriter, r *http.Request)`,
as a transformer of the response writer state.  A Go value of this type can also be
nil; where that matters the value is an `Option Handler`, with `none` for nil. -/
abbrev Handler := ResponseWriter → Request → ResponseWriter

/-! ## The process-wide router `http.DefaultServeMux`

`RegisterEndpoint` calls `http.HandleFunc` and `Run` passes a nil handler to
`http.ListenAndServe`; both therefore use `http.DefaultServeMux`.  The router is
library code; it is modelled after `ServeMux` as it was when the repository was
written (before the pattern language of Go 1.22): `HandleFunc` panics on a nil
handler, `Handle` panics on an empty pattern and on a pattern that is already
registered; a pattern that ends in a slash names a subtree; a pattern that does not
start with a slash starts with a host name.  A request whose path is not canonical is
redirected to the canonical path; a request for `/tree` is redirected to `/tree/` when
only the latter is registered; otherwise a pattern of the request's host takes
precedence, and among the patterns without host the exact one wins over the longest
subtree that contains the path; the not-found handler answers when nothing matches.
The body of a redirect and the escaping of its URL are left out. -/

/-- The registered patterns with their handlers, most recent last. -/
structure ServeMux where
  m : List (String × Handler)

/-- A router without registrations. -/
def ServeMux.empty : ServeMux := { m := [] }

/-- The handler registered under exactly this pattern: the map lookup `mux.m[pattern]`. -/
def ServeMux.lookup (mux : ServeMux) (pattern : String) : Option Handler :=
  (mux.m.find? (fun e => e.1 == pattern)).map (fun e => e.2)

/-- The registered patterns. -/
def ServeMux.patterns (mux : ServeMux) : List String := mux.m.map (fun e => e.1)

/-- Models `(*ServeMux).Handle`: registers the handler for the pattern, and fails with
the panic message on an empty pattern, on a nil handler, and on a pattern that already
has a handler. -/
def ServeMux.Handle (mux : ServeMux) (pattern : String) (handler : Option Handler) :
    Except String ServeMux :=
  if pattern = "" then Except.error "http: invalid pattern"
  else
    match handler with
    | none => Except.error "http: nil handler"
    | some h =>
      if (mux.lookup pattern).isSome then
        Except.error ("http: multiple registrations for " ++ pattern)
      else Except.ok { m := mux.m ++ [(pattern, h)] }

/-- Whether a pattern names a subtree that contains the path: it ends in a slash and
is a prefix of the path. -/
def subtreeMatch (pattern path : String) : Bool :=
  decide (pattern.toList.getLast? = some '/') && pattern.toList.isPrefixOf path.toList

/-- The longest subtree pattern containing the path, the earliest registered among
equally long ones. -/
def longestSubtree (es : List (String × Handler)) (path : String) :
    Option (String × Handler) :=
  es.foldl
    (fun best e =>
      if subtreeMatch e.1 path then
        match best with
        | none => some e
        | some b => if b.1.length < e.1.length then some e else some b
      else best)
    none

/-- Models `(*ServeMux).match`: the exact pattern first, then the longest subtree. -/
def ServeMux.matchPath (mux : ServeMux) (path : String) : Option Handler :=
  match mux.lookup path with
  | some h => some h
  | none => (longestSubtree mux.m path).map (fun e => e.2)

/-- Models `http.NotFound`: status 404 and the fixed text. -/
def NotFoundHandler : Handler := fun w _ => (w.WriteHeader 404).Write "404 page not found\n"

/-- Models `http.RedirectHandler(url, StatusMovedPermanently)`: status 301 with the
`Location` header. -/
def RedirectHandler (url : String) : Handler :=
  fun w _ => ({ w with location := some url } : ResponseWriter).WriteHeader 301

/-- Whether some registered pattern starts with a host name: the field `mux.hosts`. -/
def ServeMux.hosts (mux : ServeMux) : Bool :=
  mux.m.any (fun e => decide (e.1.toList.head? ≠ some '/'))

/-- Models `(*ServeMux).handler(host, path)`: a host-specific pattern takes precedence
over the generic ones; the not-found handler when nothing matches. -/
def ServeMux.handler (mux : ServeMux) (host path : String) : Handler :=
  match (if mux.hosts then mux.matchPath (host ++ path) else none) with
  | some h => h
  | none => (mux.matchPath path).getD NotFoundHandler

/-- Models `shouldRedirect`: neither the path nor the host with the path is registered,
one of them followed by a slash is, and the path does not end in a slash. -/
def ServeMux.shouldRedirect (mux : ServeMux) (host path : String) : Bool :=
  (mux.lookup path).isNone && (mux.lookup (host ++ path)).isNone && decide (path ≠ "") &&
    ((mux.lookup (path ++ "/")).isSome || (mux.lookup (host ++ path ++ "/")).isSome) &&
    decide (path.toList.getLast? ≠ some '/')

/-- The handler for a host and a canonical path: the redirect to the subtree when it
applies, the match otherwise. -/
def ServeMux.dispatch (mux : ServeMux) (host path : String) : Handler :=
  if mux.shouldRedirect host path then RedirectHandler (path ++ "/")
  else mux.handler host path

/-- The characters of a path between its slashes. -/
def splitSlash : List Char → List (List Char)
  | [] => [[]]
  | c :: cs =>
    match splitSlash cs with
    | [] => [[c]]
    | seg :: rest => if c = '/' then [] :: seg :: rest else (c :: seg) :: rest

/-- The elements of a rooted path that `path.Clean` keeps: empty elements and `.` are
dropped, `..` removes the element before it (none at the root); `acc` holds the kept
elements, last first. -/
def cleanSegments : List (List Char) → List (List Char) → List (List Char)
  | [], acc => acc.reverse
  | seg :: rest, acc =>
    if seg = [] ∨ seg = ['.'] then cleanSegments rest acc
    else if seg = ['.', '.'] then cleanSegments rest acc.tail
    else cleanSegments rest (seg :: acc)

/-- Models `path.Clean` on a rooted path: each kept element after a slash, the root
alone when none is kept. -/
def pathClean (p : List Char) : List Char :=
  let r := (cleanSegments (splitSlash p) []).foldr (fun seg acc => '/' :: seg ++ acc) []
  if r = [] then ['/'] else r

/-- Models `cleanPath` of `net/http`: the canonical path, rooted, without `.` and `..`
elements and repeated slashes, a trailing slash kept. -/
def cleanPath (p : String) : String :=
  if p = "" then "/"
  else
    let q := if p.toList.head? = some '/' then p.toList else '/' :: p.toList
    let np := pathClean q
    if q.getLast? = some '/' ∧ np ≠ ['/'] then String.mk (np ++ ['/']) else String.mk np

/-- Models `(*ServeMux).Handler` on a request as it arrives: except for `CONNECT` the
path is made canonical first, and a request whose path is not canonical is answered
with a redirect to the canonical path. -/
def ServeMux.HandlerRaw (mux : ServeMux) (r : RawRequest) : Handler :=
  if r.method = "CONNECT" then mux.dispatch r.host r.path
  else if mux.shouldRedirect r.host (cleanPath r.path) then
    RedirectHandler (cleanPath r.path ++ "/")
  else if cleanPath r.path ≠ r.path then RedirectHandler (cleanPath r.path)
  else mux.handler r.host r.path

/-- Models `(*ServeMux).Handler` on a request as the router matches it, with its path
canonical and no pattern of its host registered. -/
def ServeMux.Handler (mux : ServeMux) (r : Request) : Handler :=
  mux.dispatch "" r.path

/-- Models `(*ServeMux).ServeHTTP`: runs the matching handler on a fresh response writer. -/
def ServeMux.ServeHTTP (mux : ServeMux) (r : Request) : Response :=
  (mux.Handler r ResponseWriter.fresh r).finish

/-- Models `(*ServeMux).ServeHTTP` on a request as it arrives. -/
def ServeMux.ServeHTTPRaw (mux : ServeMux) (r : RawRequest) : Response :=
  (mux.HandlerRaw r ResponseWriter.fresh { method := r.method, path := r.path }).finish

/-! ## Process state and call outcomes -/

/-- Severity of a log line. -/
inductive Level where
  | debug
  | info
  | error
deriving DecidableEq, Repr

/-- One line handed to the logger. -/
structure LogEntry where
  level : Level
  msg : String
deriving DecidableEq, Repr

/-- The process-wide state the HTTP facade reads and changes: the default router, the
lines logged so far, and the addresses handed to `http.ListenAndServe` so far. -/
structure World where
  mux : ServeMux
  log : List LogEntry
  listens : List String

/-- The state of a process that has just started. -/
def World.init : World := { mux := ServeMux.empty, log := [], listens := [] }

/-- How a Go call ends: it returns, it panics, or it never returns.  Each case carries
the process state the call leaves behind. -/
inductive Outcome (α : Type) where
  | returned (val : α) (w : World)
  | panicked (msg : String) (w : World)
  | blocked (w : World)

/-- The process state a call leaves behind. -/
def Outcome.world {α : Type} : Outcome α → World
  | Outcome.returned _ w => w
  | Outcome.panicked _ w => w
  | Outcome.blocked w => w

/-- Whether the call returned normally. -/
def Outcome.isReturned {α : Type} : Outcome α → Bool
  | Outcome.returned _ _ => true
  | _ => false

/-- Whether the call surfaced a failure to its caller (in Go, without an error result,
a panic is the only way). -/
def Outcome.isFailure {α : Type} : Outcome α → Bool
  | Outcome.panicked _ _ => true
  | _ => false

/-- The environment of `http.ListenAndServe`: for an address, `none` when the listener
binds and serves for the rest of the process, `some err` when it returns the error
`err` (the port cannot be bound, or the listener fails later). -/
abbrev Net := String → Option String

/-- Modelled from the spec: the `Logger` type and `NewLogger` are declared in a file of
package `config` that is not among the sources; structured logging is an external
collaborator, so a logger is a sink that appends lines to the process log. -/
structure Logger where
  name : String
deriving DecidableEq, Repr

/-- Modelled from the spec: `NewLogger` of package `config` (not among the sources). -/
def NewLogger : Logger := { name := "default" }

/-- Models `logger.Debug(msg)`. -/
def Logger.Debug (_l : Logger) (msg : String) (w : World) : World :=
  { w with log := w.log ++ [{ level := Level.debug, msg := msg }] }

/-- Models `logger.Info(msg)`. -/
def Logger.Info (_l : Logger) (msg : String) (w : World) : World :=
  { w with log := w.log ++ [{ level := Level.info, msg := msg }] }

/-! ## `config/http_config.go` -/

/-- DefaultHTTPServer is the default implementation of HTTPServer: the struct logger
and the port to run on. -/
structure DefaultHTTPServer where
  logger : Logger
  Port : Int
deriving DecidableEq, Repr

/-- NewDefaultHTTPServer creates a new DefaultHttpServer. -/
def NewDefaultHTTPServer (port : Int) : DefaultHTTPServer :=
  { logger := NewLogger, Port := port }

/-- Models `http.HandleFunc(pattern, handler)`: panics on a nil handler, then `Handle`
on the process-wide default router; a failed registration panics and leaves the router
as it was. -/
def HandleFunc (pattern : String) (handler : Option Handler) (w : World) : Outcome Unit :=
  match handler with
  | none => Outcome.panicked "http: nil handler" w
  | some h =>
    match w.mux.Handle pattern (some h) with
    | Except.ok mux1 => Outcome.returned () { w with mux := mux1 }
    | Except.error msg => Outcome.panicked msg w

/-- RegisterEndpoint registers a Handler to a specific endpoint: a debug line, then
`http.HandleFunc(endpoint, handler)`; the handler may be nil (`none`). -/
def DefaultHTTPServer.RegisterEndpoint (dhs : DefaultHTTPServer) (endpoint : String)
    (handler : Option Handler) (w : World) : Outcome Unit :=
  let w1 := dhs.logger.Debug
    ("Registering handler on endpoint \x27" ++ endpoint ++ "\x27") w
  HandleFunc endpoint handler w1

/-- The address `fmt.Sprintf(":%d", dhs.Port)`. -/
def DefaultHTTPServer.addr (dhs : DefaultHTTPServer) : String :=
  ":" ++ String.mk (formatInt dhs.Port)

/-- Models `http.ListenAndServe(addr, nil)`: the call is recorded; it returns the
listener error if there is one and never returns otherwise. -/
def ListenAndServe (net : Net) (addr : String) (w : World) : Outcome String :=
  let w1 := { w with listens := w.listens ++ [addr] }
  match net addr with
  | some err => Outcome.returned err w1
  | none => Outcome.blocked w1

/-- Run runs the HTTP server: an info line, then `http.ListenAndServe` on the port with
the default router; the error `ListenAndServe` returns is dropped, and `Run` has no
result. -/
def DefaultHTTPServer.Run (dhs : DefaultHTTPServer) (net : Net) (w : World) : Outcome Unit :=
  let w1 := dhs.logger.Info
    ("Starting HTTP server on port \x27" ++ String.mk (formatInt dhs.Port) ++ "\x27...") w
  match ListenAndServe net dhs.addr w1 with
  | Outcome.returned _ w2 => Outcome.returned () w2
  | Outcome.panicked msg w2 => Outcome.panicked msg w2
  | Outcome.blocked w2 => Outcome.blocked w2

/-- The response a client gets from the listener `dhs.Run` starts: `Run` passes a nil
handler, so every request goes to the process-wide default router. -/
def DefaultHTTPServer.serve (_dhs : DefaultHTTPServer) (w : World) (r : Request) : Response :=
  w.mux.ServeHTTP r

/-- The response to a request as it arrives at the listener `dhs.Run` starts. -/
def DefaultHTTPServer.serveRaw (_dhs : DefaultHTTPServer) (w : World) (r : RawRequest) :
    Response :=
  w.mux.ServeHTTPRaw r

/-! ## Messages on the wire

The package `messages` is not among the sources; the integration test builds a
`messages.SourceMessage` with a `Seed`, decodes a `messages.SinkMessage` with
`json.Unmarshal` and reads its `RandomNumber`. -/

/-- The least `int64`. -/
def minInt64 : Int := -9223372036854775808

/-- The greatest `int64`. -/
def maxInt64 : Int := 9223372036854775807

/-- A Go `int64`: an integer in the 64-bit two's complement range. -/
abbrev Int64 := { n : Int // minInt64 ≤ n ∧ n ≤ maxInt64 }

/-- Modelled from the spec: `messages.SourceMessage` (package not among the sources),
the inbound message `{ seed: int64 }`, field `Seed` as the test writes it. -/
structure SourceMessage where
  Seed : Int64
deriving DecidableEq

/-- Modelled from the spec: `messages.SinkMessage` (package not among the sources), the
outbound message `{ randomNumber: int64 }`, field `RandomNumber` as the test reads it. -/
structure SinkMessage where
  RandomNumber : Int64
deriving DecidableEq

/-- Modelled from the spec: the `DecodeError` of the message schemas, which identifies
the offending payload. -/
structure DecodeError where
  payload : List Char
deriving DecidableEq

deriving instance DecidableEq for Except

/-- The opening brace of a JSON object. -/
def lbrace : Char := '\x7b'

/-- The closing brace of a JSON object. -/
def rbrace : Char := '\x7d'

/-- The double quote around a JSON string. -/
def dquote : Char := '\x22'

/-- JSON insignificant whitespace: space, tab, line feed, carriage return. -/
def isWs (c : Char) : Bool := c == ' ' || c == '\t' || c == '\n' || c == '\r'

/-- Drops leading whitespace. -/
def skipWs (cs : List Char) : List Char := cs.dropWhile isWs

/-- Consumes the literal at the head of the input, or fails. -/
def expectLit (lit cs : List Char) : Option (List Char) :=
  if lit.isPrefixOf cs then some (cs.drop lit.length) else none

/-- Modelled from the spec: the wire form of a message with one integer field, the JSON
object `{"<field>":<integer>}` (the encoder of package `messages` is not among the
sources). -/
def encodeObject (field : List Char) (v : Int) : List Char :=
  lbrace :: dquote :: field ++ [dquote, ':'] ++ formatInt v ++ [rbrace]

/-- Modelled from the spec: reads a JSON object that has exactly the one member
`"<field>"` with an integer value, whitespace allowed between the tokens; anything
else (not JSON, another member name, a value that is not an integer, trailing text)
is rejected (the decoder of package `messages` is not among the sources). -/
def decodeObject (field : List Char) (payload : List Char) : Option Int :=
  (expectLit [lbrace] (skipWs payload)).bind fun c1 =>
  (expectLit (dquote :: field ++ [dquote]) (skipWs c1)).bind fun c2 =>
  (expectLit [':'] (skipWs c2)).bind fun c3 =>
  (parseInt (skipWs c3)).bind fun r =>
  (expectLit [rbrace] (skipWs r.2)).bind fun c5 =>
  if skipWs c5 = [] then some r.1 else none

/-- Narrows a decoded integer to `int64`; a value out of range is a decode error. -/
def toInt64 (payload : List Char) (v : Option Int) : Except DecodeError Int64 :=
  match v with
  | none => Except.error { payload := payload }
  | some n =>
    if h : minInt64 ≤ n ∧ n ≤ maxInt64 then Except.ok ⟨n, h⟩
    else Except.error { payload := payload }

/-- Whether a run of characters is a JSON natural-number literal: digits only, at least
one, and no leading zero unless it is the single digit `0`. -/
def isJsonNat (ds : List Char) : Bool :=
  !ds.isEmpty && ds.all isDigitChar && (decide (ds.head? ≠ some '0') || decide (ds.length = 1))

/-- The text of a JSON integer literal with the given sign and digits. -/
def jsonIntText (neg : Bool) (ds : List Char) : List Char := if neg then '-' :: ds else ds

/-- The value of a JSON integer literal with the given sign and digits. -/
def jsonIntVal (neg : Bool) (ds : List Char) : Int :=
  if neg then -(digitsValue ds : Int) else (digitsValue ds : Int)

/-- Modelled from the spec: the wire contract of a topic, written as a grammar: the
payload is a JSON object with the one member `"<field>"` whose value is an integer
literal in the `int64` range, with optional whitespace around the tokens. -/
def MatchesSchema (field payload : List Char) : Prop :=
  ∃ (w1 w2 w3 w4 w5 w6 : List Char) (neg : Bool) (ds : List Char),
    (w1.all isWs = true ∧ w2.all isWs = true ∧ w3.all isWs = true ∧
      w4.all isWs = true ∧ w5.all isWs = true ∧ w6.all isWs = true) ∧
    isJsonNat ds = true ∧
    (minInt64 ≤ jsonIntVal neg ds ∧ jsonIntVal neg ds ≤ maxInt64) ∧
    payload = w1 ++ ([lbrace] ++ (w2 ++ ((dquote :: field ++ [dquote]) ++ (w3 ++ ([':'] ++
      (w4 ++ (jsonIntText neg ds ++ (w5 ++ ([rbrace] ++ w6)))))))))

/-- The member name of a source message. -/
def seedField : List Char := ['S', 'e', 'e', 'd']

/-- The member name of a sink message. -/
def randomNumberField : List Char :=
  ['R', 'a', 'n', 'd', 'o', 'm', 'N', 'u', 'm', 'b', 'e', 'r']

/-- Modelled from the spec: encoding of a source message, `{"Seed":<int64>}`. -/
def encodeSourceMessage (m : SourceMessage) : List Char := encodeObject seedField m.Seed.val

/-- Modelled from the spec: decoding of a source message; malformed bytes fail with a
`DecodeError` that carries the payload. -/
def decodeSourceMessage (payload : List Char) : Except DecodeError SourceMessage :=
  match toInt64 payload (decodeObject seedField payload) with
  | Except.ok v => Except.ok { Seed := v }
  | Except.error e => Except.error e

/-- Modelled from the spec: encoding of a sink message, `{"RandomNumber":<int64>}`. -/
def encodeSinkMessage (m : SinkMessage) : List Char :=
  encodeObject randomNumberField m.RandomNumber.val

/-- Modelled from the spec: decoding of a sink message. -/
def decodeSinkMessage (payload : List Char) : Except DecodeError SinkMessage :=
  match toInt64 payload (decodeObject randomNumberField payload) with
  | Except.ok v => Except.ok { RandomNumber := v }
  | Except.error e => Except.error e

/-! ## The pseudo-random generator `math/rand`

The transform draws from the generator of Go's `math/rand`, an additive lagged
Fibonacci generator (`rng.go`): a state of 607 words with two cursors, filled from the
seed by a linear congruential recurrence and a fixed table.  The generator is library
code.  An `int64` word is kept as its 64-bit pattern, a natural number below `2^64`. -/

/-- The length of the generator state, `rngLen`. -/
def rngLen : Nat := 607

/-- The distance of the two cursors, `rngTap`. -/
def rngTap : Nat := 273

/-- The mask of `Int63`, `(1 << 63) - 1`. -/
def rngMask : Nat := 9223372036854775807

/-- The modulus of the seeding recurrence, `int32max = (1 << 31) - 1`. -/
def int32max : Int := 2147483647

/-- The number of 64-bit patterns, `2^64`. -/
def two64 : Nat := 18446744073709551616

/-- Entries 0 to 63 of the table `rngCooked`. -/
def rngCooked0 : List Int := [
  -4181792142133755926, -4576982950128230565, 1395769623340756751, 5333664234075297259,
  -6347679516498800754, 9033628115061424579, 7143218595135194537, 4812947590706362721,
  7937252194349799378, 5307299880338848416, 8209348851763925077, -7107630437535961764,
  4593015457530856296, 8140875735541888011, -5903942795589686782, -603556388664454774,
  -7496297993371156308, 113108499721038619, 4569519971459345583, -4160538177779461077,
  -6835753265595711384, -6507240692498089696, 6559392774825876886, 7650093201692370310,
  7684323884043752161, -8965504200858744418, -2629915517445760644, 271327514973697897,
  -6433985589514657524, 1065192797246149621, 3344507881999356393, -4763574095074709175,
  7465081662728599889, 1014950805555097187, -4773931307508785033, -5742262670416273165,
  2418672789110888383, 5796562887576294778, 4484266064449540171, 3738982361971787048,
  -4699774852342421385, 10530508058128498, -589538253572429690, -6598062107225984180,
  8660405965245884302, 10162832508971942, -2682657355892958417, 7031802312784620857,
  6240911277345944669, 831864355460801054, -1218937899312622917, 2116287251661052151,
  2202309800992166967, 9161020366945053561, 4069299552407763864, 4936383537992622449,
  457351505131524928, -8881176990926596454, -6375600354038175299, -7155351920868399290,
  4368649989588021065, 887231587095185257, -3659780529968199312, -2407146836602825512
  ]

/-- Entries 64 to 127 of the table `rngCooked`. -/
def rngCooked1 : List Int := [
  5616972787034086048, -751562733459939242, 1686575021641186857, -5177887698780513806,
  -4979215821652996885, -1375154703071198421, 5632136521049761902, -8390088894796940536,
  -193645528485698615, -5979788902190688516, -4907000935050298721, -285522056888777828,
  -2776431630044341707, 1679342092332374735, 6050638460742422078, -2229851317345194226,
  -1582494184340482199, 5881353426285907985, 812786550756860885, 4541845584483343330,
  -6497901820577766722, 4980675660146853729, -4012602956251539747, -329088717864244987,
  -2896929232104691526, 1495812843684243920, -2153620458055647789, 7370257291860230865,
  -2466442761497833547, 4706794511633873654, -1398851569026877145, 8549875090542453214,
  -9189721207376179652, -7894453601103453165, 7297902601803624459, 1011190183918857495,
  -6985347000036920864, 5147159997473910359, -8326859945294252826, 2659470849286379941,
  6097729358393448602, -7491646050550022124, -5117116194870963097, -896216826133240300,
  -745860416168701406, 5803876044675762232, -787954255994554146, -3234519180203704564,
  -4507534739750823898, -1657200065590290694, 505808562678895611, -4153273856159712438,
  -8381261370078904295, 572156825025677802, 1791881013492340891, 3393267094866038768,
  -5444650186382539299, 2352769483186201278, -7930912453007408350, -325464993179687389,
  -3441562999710612272, -6489413242825283295, 5092019688680754699, -227247482082248967
  ]

/-- Entries 128 to 191 of the table `rngCooked`. -/
def rngCooked2 : List Int := [
  4234737173186232084, 5027558287275472836, 4635198586344772304, -536033143587636457,
  5907508150730407386, -8438615781380831356, 972392927514829904, -3801314342046600696,
  -4064951393885491917, -174840358296132583, 2407211146698877100, -1640089820333676239,
  3940796514530962282, -5882197405809569433, 3095313889586102949, -1818050141166537098,
  5832080132947175283, 7890064875145919662, 8184139210799583195, -8073512175445549678,
  -7758774793014564506, -4581724029666783935, 3516491885471466898, -8267083515063118116,
  6657089965014657519, 5220884358887979358, 1796677326474620641, 5340761970648932916,
  1147977171614181568, 5066037465548252321, 2574765911837859848, 1085848279845204775,
  -5873264506986385449, 6116438694366558490, 2107701075971293812, -7420077970933506541,
  2469478054175558874, -1855128755834809824, -5431463669011098282, -9038325065738319171,
  -6966276280341336160, 7217693971077460129, -8314322083775271549, 7196649268545224266,
  -3585711691453906209, -5267827091426810625, 8057528650917418961, -5084103596553648165,
  -2601445448341207749, -7850010900052094367, 6527366231383600011, 3507654575162700890,
  9202058512774729859, 1954818376891585542, -2582991129724600103, 8299563319178235687,
  -5321504681635821435, 7046310742295574065, -2376176645520785576, -7650733936335907755,
  8850422670118399721, 3631909142291992901, 5158881091950831288, -6340413719511654215
  ]

/-- Entries 192 to 255 of the table `rngCooked`. -/
def rngCooked3 : List Int := [
  4763258931815816403, 6280052734341785344, -4979582628649810958, 2043464728020827976,
  -2678071570832690343, 4562580375758598164, 5495451168795427352, -7485059175264624713,
  553004618757816492, 6895160632757959823, -989748114590090637, 7139506338801360852,
  -672480814466784139, 5535668688139305547, 2430933853350256242, -3821430778991574732,
  -1063731997747047009, -3065878205254005442, 7632066283658143750, 6308328381617103346,
  3681878764086140361, 3289686137190109749, 6587997200611086848, 244714774258135476,
  -5143583659437639708, 8090302575944624335, 2945117363431356361, -8359047641006034763,
  3009039260312620700, -793344576772241777, 401084700045993341, -1968749590416080887,
  4707864159563588614, -3583123505891281857, -3240864324164777915, -5908273794572565703,
  -3719524458082857382, -5281400669679581926, 8118566580304798074, 3839261274019871296,
  7062410411742090847, -8481991033874568140, 6027994129690250817, -6725542042704711878,
  -2971981702428546974, -7854441788951256975, 8809096399316380241, 6492004350391900708,
  2462145737463489636, -8818543617934476634, -5070345602623085213, -8961586321599299868,
  -3758656652254704451, -8630661632476012791, 6764129236657751224, -709716318315418359,
  -3403028373052861600, -8838073512170985897, -3999237033416576341, -2920240395515973663,
  -2073249475545404416, 368107899140673753, -6108185202296464250, -6307735683270494757
  ]

/-- Entries 256 to 319 of the table `rngCooked`. -/
def rngCooked4 : List Int := [
  4782583894627718279, 6718292300699989587, 8387085186914375220, 3387513132024756289,
  4654329375432538231, -292704475491394206, -3848998599978456535, 7623042350483453954,
  7725442901813263321, 9186225467561587250, -5132344747257272453, -6865740430362196008,
  2530936820058611833, 1636551876240043639, -3658707362519810009, 1452244145334316253,
  -7161729655835084979, -7943791770359481772, 9108481583171221009, -3200093350120725999,
  5007630032676973346, 2153168792952589781, 6720334534964750538, -3181825545719981703,
  3433922409283786309, 2285479922797300912, 3110614940896576130, -2856812446131932915,
  -3804580617188639299, 7163298419643543757, 4891138053923696990, 580618510277907015,
  1684034065251686769, 4429514767357295841, -8893025458299325803, -8103734041042601133,
  7177515271653460134, 4589042248470800257, -1530083407795771245, 143607045258444228,
  246994305896273627, -8356954712051676521, 6473547110565816071, 3092379936208876896,
  2058427839513754051, -4089587328327907870, 8785882556301281247, -3074039370013608197,
  -637529855400303673, 6137678347805511274, -7152924852417805802, 5708223427705576541,
  -3223714144396531304, 4358391411789012426, 325123008708389849, 6837621693887290924,
  4843721905315627004, -3212720814705499393, -3825019837890901156, 4602025990114250980,
  1044646352569048800, 9106614159853161675, -8394115921626182539, -4304087667751778808
  ]

/-- Entries 320 to 383 of the table `rngCooked`. -/
def rngCooked5 : List Int := [
  2681532557646850893, 3681559472488511871, -3915372517896561773, -2889241648411946534,
  -6564663803938238204, -8060058171802589521, 581945337509520675, 3648778920718647903,
  -4799698790548231394, -7602572252857820065, 220828013409515943, -1072987336855386047,
  4287360518296753003, -4633371852008891965, 5513660857261085186, -2258542936462001533,
  -8744380348503999773, 8746140185685648781, 228500091334420247, 1356187007457302238,
  3019253992034194581, 3152601605678500003, -8793219284148773595, 5559581553696971176,
  4916432985369275664, -8559797105120221417, -5802598197927043732, 2868348622579915573,
  -7224052902810357288, -5894682518218493085, 2587672709781371173, -7706116723325376475,
  3092343956317362483, -5561119517847711700, 972445599196498113, -1558506600978816441,
  1708913533482282562, -2305554874185907314, -6005743014309462908, -6653329009633068701,
  -483583197311151195, 2488075924621352812, -4529369641467339140, -4663743555056261452,
  2997203966153298104, 1282559373026354493, 240113143146674385, 8665713329246516443,
  628141331766346752, -4651421219668005332, -7750560848702540400, 7596648026010355826,
  -3132152619100351065, 7834161864828164065, 7103445518877254909, 4390861237357459201,
  -4780718172614204074, -319889632007444440, 622261699494173647, -3186110786557562560,
  -8718967088789066690, -1948156510637662747, -8212195255998774408, -7028621931231314745
  ]

/-- Entries 384 to 447 of the table `rngCooked`. -/
def rngCooked6 : List Int := [
  2623071828615234808, -4066058308780939700, -5484966924888173764, -6683604512778046238,
  -6756087640505506466, 5256026990536851868, 7841086888628396109, 6640857538655893162,
  -8021284697816458310, -7109857044414059830, -1689021141511844405, -4298087301956291063,
  -4077748265377282003, -998231156719803476, 2719520354384050532, 9132346697815513771,
  4332154495710163773, -2085582442760428892, 6994721091344268833, -2556143461985726874,
  -8567931991128098309, 59934747298466858, -3098398008776739403, -265597256199410390,
  2332206071942466437, -7522315324568406181, 3154897383618636503, -7585605855467168281,
  -6762850759087199275, 197309393502684135, -8579694182469508493, 2543179307861934850,
  4350769010207485119, -4468719947444108136, -7207776534213261296, -1224312577878317200,
  4287946071480840813, 8362686366770308971, 6486469209321732151, -5605644191012979782,
  -1669018511020473564, 4450022655153542367, -7618176296641240059, -3896357471549267421,
  -4596796223304447488, -6531150016257070659, -8982326463137525940, -4125325062227681798,
  -1306489741394045544, -8338554946557245229, 5329160409530630596, 7790979528857726136,
  4955070238059373407, -4304834761432101506, -6215295852904371179, 3007769226071157901,
  -6753025801236972788, 8928702772696731736, 7856187920214445904, -4748497451462800923,
  7900176660600710914, -7082800908938549136, -6797926979589575837, -6737316883512927978
  ]

/-- Entries 448 to 511 of the table `rngCooked`. -/
def rngCooked7 : List Int := [
  4186670094382025798, 1883939007446035042, -414705992779907823, 3734134241178479257,
  4065968871360089196, 6953124200385847784, -7917685222115876751, -7585632937840318161,
  -5567246375906782599, -5256612402221608788, 3106378204088556331, -2894472214076325998,
  4565385105440252958, 1979884289539493806, -6891578849933910383, 3783206694208922581,
  8464961209802336085, 2843963751609577687, 3030678195484896323, -4429654462759003204,
  4459239494808162889, 402587895800087237, 8057891408711167515, 4541888170938985079,
  1042662272908816815, -3666068979732206850, 2647678726283249984, 2144477441549833761,
  -3417019821499388721, -2105601033380872185, 5916597177708541638, -8760774321402454447,
  8833658097025758785, 5970273481425315300, 563813119381731307, -6455022486202078793,
  1598828206250873866, -4016978389451217698, -2988328551145513985, -6071154634840136312,
  8469693267274066490, 125672920241807416, -3912292412830714870, -2559617104544284221,
  -486523741806024092, -4735332261862713930, 5923302823487327109, -9082480245771672572,
  -1808429243461201518, 7990420780896957397, 4317817392807076702, 3625184369705367340,
  -6482649271566653105, -3480272027152017464, -3225473396345736649, -368878695502291645,
  -3981164001421868007, -8522033136963788610, 7609280429197514109, 3020985755112334161,
  -2572049329799262942, 2635195723621160615, 5144520864246028816, -8188285521126945980
  ]

/-- Entries 512 to 575 of the table `rngCooked`. -/
def rngCooked8 : List Int := [
  1567242097116389047, 8172389260191636581, -2885551685425483535, -7060359469858316883,
  -6480181133964513127, -7317004403633452381, 6011544915663598137, 5932255307352610768,
  2241128460406315459, -8327867140638080220, 3094483003111372717, 4583857460292963101,
  9079887171656594975, -384082854924064405, -3460631649611717935, 4225072055348026230,
  -7385151438465742745, 3801620336801580414, -399845416774701952, -7446754431269675473,
  7899055018877642622, 5421679761463003041, 5521102963086275121, -4975092593295409910,
  8735487530905098534, -7462844945281082830, -2080886987197029914, -1000715163927557685,
  -4253840471931071485, -5828896094657903328, 6424174453260338141, 359248545074932887,
  -5949720754023045210, -2426265837057637212, 3030918217665093212, -9077771202237461772,
  -3186796180789149575, 740416251634527158, -2142944401404840226, 6951781370868335478,
  399922722363687927, -8928469722407522623, -1378421100515597285, -8343051178220066766,
  -3030716356046100229, -8811767350470065420, 9026808440365124461, 6440783557497587732,
  4615674634722404292, 539897290441580544, 2096238225866883852, 8751955639408182687,
  -7316147128802486205, 7381039757301768559, 6157238513393239656, -1473377804940618233,
  8629571604380892756, 5280433031239081479, 7101611890139813254, 2479018537985767835,
  7169176924412769570, -1281305539061572506, -7865612307799218120, 2278447439451174845
  ]

/-- Entries 576 to 606 of the table `rngCooked`. -/
def rngCooked9 : List Int := [
  3625338785743880657, 6477479539006708521, 8976185375579272206, -3712000482142939688,
  1326024180520890843, 7537449876596048829, 5464680203499696154, 3189671183162196045,
  6346751753565857109, -8982212049534145501, -6127578587196093755, -245039190118465649,
  -6320577374581628592, 7208698530190629697, 7276901792339343736, -7490986807540332668,
  4133292154170828382, 2918308698224194548, -7703910638917631350, -3929437324238184044,
  -4300543082831323144, -6344160503358350167, 5896236396443472108, -758328221503023383,
  -1894351639983151068, -307900319840287220, -6278469401177312761, -2171292963361310674,
  8382142935188824023, 9103922860780351547, 4152330101494654406
  ]

/-- The table `rngCooked` of `rng.go`: the state of the generator after 780e10
iterations. -/
def rngCooked : List Int :=
  rngCooked0 ++ rngCooked1 ++ rngCooked2 ++ rngCooked3 ++ rngCooked4 ++
  rngCooked5 ++ rngCooked6 ++ rngCooked7 ++ rngCooked8 ++ rngCooked9

/-- The 64-bit pattern of an integer: the conversion to `uint64`. -/
def bits64 (i : Int) : Nat := (i % (two64 : Int)).toNat

/-- Models `seedrand`: `x[n+1] = 48271 * x[n] mod (2**31 - 1)`, computed without
overflow of `int32`. -/
def seedrand (x : Int) : Int :=
  let hi := Int.tdiv x 44488
  let lo := Int.tmod x 44488
  let x1 := 48271 * lo - 3399 * hi
  if x1 < 0 then x1 + int32max else x1

/-- The recurrence `seedrand` applied `n` times: the turns of the seeding loop. -/
def seedIter : Nat → Int → Int
  | 0, x => x
  | n + 1, x => seedIter n (seedrand x)

/-- The start value of the seeding loop: the seed modulo `int32max`, made positive, and
a fixed value in place of zero. -/
def normSeed (seed : Int) : Int :=
  let s1 := Int.tmod seed int32max
  let s2 := if s1 < 0 then s1 + int32max else s1
  if s2 = 0 then 89482311 else s2

/-- The state of the generator, `rngSource`: the cursors `tap` and `feed` and the array
`vec` of `rngLen` words. -/
structure rngSource where
  tap : Int
  feed : Int
  vec : Fin rngLen → Nat

/-- The assignment `vec[i] = u`. -/
def setVec (vec : Fin rngLen → Nat) (i : Int) (u : Nat) : Fin rngLen → Nat :=
  fun j => if (j.val : Int) = i then u else vec j

/-- The read `vec[i]`. -/
def getVec (vec : Fin rngLen → Nat) (i : Int) : Nat :=
  if h : i.toNat < rngLen then vec ⟨i.toNat, h⟩ else 0

/-- The turns `i = i0, ..., i0 + n - 1` of the seeding loop of `Seed`, from the value `x`
of the recurrence at the top of turn `i0`: each turn draws three values from the
recurrence, combines them with the table entry and stores the word in `vec[i]`. -/
def seedFill : Nat → Nat → Int → (Fin rngLen → Nat) → (Fin rngLen → Nat)
  | 0, _, _, vec => vec
  | n + 1, i, x, vec =>
    let x1 := seedrand x
    let x2 := seedrand x1
    let x3 := seedrand x2
    let u := (bits64 x1 <<< 40) % two64 ^^^ (bits64 x2 <<< 20) % two64 ^^^ bits64 x3 ^^^
      bits64 (rngCooked.getD i 0)
    seedFill n (i + 1) x3 (setVec vec i u)

/-- Models `(*rngSource).Seed`: the cursors are reset, the recurrence runs 20 turns from
the normalised seed, and then every word of `vec` is overwritten in place. -/
def rngSource.Seed (rng : rngSource) (seed : Int) : rngSource :=
  { tap := 0, feed := (rngLen : Int) - (rngTap : Int),
    vec := seedFill rngLen 0 (seedIter 20 (normSeed seed)) rng.vec }

/-- Models `(*rngSource).Uint64`: both cursors step back (wrapping at zero), the words at
the cursors are added modulo `2^64`, and the sum is stored at `feed` and returned. -/
def rngSource.Uint64 (rng : rngSource) : Nat × rngSource :=
  let tap := if rng.tap - 1 < 0 then rng.tap - 1 + rngLen else rng.tap - 1
  let feed := if rng.feed - 1 < 0 then rng.feed - 1 + rngLen else rng.feed - 1
  let x := (getVec rng.vec feed + getVec rng.vec tap) % two64
  (x, { tap := tap, feed := feed, vec := setVec rng.vec feed x })

/-- Models `(*rngSource).Int63`: the low 63 bits of `Uint64`, a non-negative `int64`. -/
def rngSource.Int63 (rng : rngSource) : Int64 × rngSource :=
  (⟨((rng.Uint64.1 &&& rngMask : Nat) : Int), by
      have h := @Nat.and_le_right rng.Uint64.1 rngMask
      unfold rngMask at h
      unfold minInt64 maxInt64 rngMask
      constructor <;> omega⟩,
    rng.Uint64.2)

/-- The word the seeding loop stores in `vec[i]`, from the value `x` of the recurrence at
the top of turn `i`. -/
def seedWord (x : Int) (i : Nat) : Nat :=
  (bits64 (seedIter 1 x) <<< 40) % two64 ^^^ (bits64 (seedIter 2 x) <<< 20) % two64 ^^^
    bits64 (seedIter 3 x) ^^^ bits64 (rngCooked.getD i 0)

/-- Modular exponentiation by squaring, `a ^ k mod m` for `k < 2 ^ fuel`. -/
def powMod (a m : Nat) : Nat → Nat → Nat
  | 0, _ => 1 % m
  | fuel + 1, k =>
    if k = 0 then 1 % m
    else if k % 2 = 0 then powMod a m fuel (k / 2) * powMod a m fuel (k / 2) % m
    else powMod a m fuel (k / 2) * powMod a m fuel (k / 2) % m * a % m

/-! ## The transform -/

/-- The pseudo-random generator the pipeline draws from, as the transform uses it: a
state, its value before any seeding, a way to seed it in place, and a draw that yields a
64-bit value and the next state. -/
structure Generator where
  State : Type
  fresh : State
  seed : State → Int64 → State
  next : State → Int64 × State

/-- The generator of Go's `math/rand`: the state is an `rngSource` (its zero value
before any seeding), seeded by `Seed` and drawn from by `Int63`. -/
def goRand : Generator where
  State := rngSource
  fresh := { tap := 0, feed := 0, vec := fun _ => 0 }
  seed := fun rng s => rng.Seed s.val
  next := fun rng => rng.Int63

/-- Modelled from the spec: the deterministic transform (its source file is not among
the sources): seed the pipeline generator with `seed`, draw one 64-bit value, use it
as the random number.  The generator state before the call is `rng`; seeding and
drawing change it, and the state after the call is returned with the value. -/
def transform (gen : Generator) (seed : Int64) (rng : gen.State) : Int64 × gen.State :=
  gen.next (gen.seed rng seed)

/-- Runs the transform on each seed in turn, threading the generator state. -/
def transformAll (gen : Generator) : List Int64 → gen.State → List Int64 × gen.State
  | [], rng => ([], rng)
  | s :: rest, rng =>
    let r := transform gen s rng
    let rs := transformAll gen rest r.2
    (r.1 :: rs.1, rs.2)

/-! ## The broker facade and the pipeline runner -/

/-- A message on a topic: topic, optional key, value. -/
structure Record where
  topic : String
  key : Option (List Char)
  value : List Char
deriving DecidableEq

/-- Modelled from the spec: the in-memory form of the broker client facade: the records
published so far, oldest first, and whether a send can currently be queued. -/
structure Broker where
  records : List Record
  up : Bool
deriving DecidableEq

/-- Modelled from the spec: `publish(topic, key, value)`: the record is appended, or a
publish error is returned when the send cannot be queued; no message is lost
silently and nothing is retried. -/
def Broker.publish (b : Broker) (topic : String) (key : Option (List Char))
    (value : List Char) : Except String Broker :=
  if b.up then
    Except.ok { b with records := b.records ++ [{ topic := topic, key := key, value := value }] }
  else Except.error "publish failed"

/-- AppConfig as the integration test fills it in. -/
structure AppConfig where
  Port : Int
  RandomSeed : Int64
  Brokers : String
  SourceTopic : String
  SinkTopic : String
deriving DecidableEq

/-- Modelled from the spec: the state of a running application (`NewAppContext` and
`RunApp` are not among the sources): the configuration, the process state of the HTTP
side, the broker facade and the state of the pipeline generator. -/
structure App (gen : Generator) where
  config : AppConfig
  world : World
  broker : Broker
  rng : gen.State

/-- Models `logger.Error(msg)`. -/
def Logger.Error (_l : Logger) (msg : String) (w : World) : World :=
  { w with log := w.log ++ [{ level := Level.error, msg := msg }] }

/-- Modelled from the spec: one turn of the consume loop: decode the delivery as a
source message, compute the transform of its seed, encode the sink message and
publish it on the sink topic with no key.  A decode failure and a publish failure
are logged and the loop goes on to the next delivery. -/
def processDelivery (gen : Generator) (a : App gen) (payload : List Char) : App gen :=
  match decodeSourceMessage payload with
  | Except.error _ =>
    { a with world := NewLogger.Error "cannot decode source message" a.world }
  | Except.ok m =>
    let r := transform gen m.Seed a.rng
    match a.broker.publish a.config.SinkTopic none (encodeSinkMessage { RandomNumber := r.1 }) with
    | Except.error _ =>
      { a with rng := r.2, world := NewLogger.Error "cannot publish sink message" a.world }
    | Except.ok b => { a with rng := r.2, broker := b }

/-- Modelled from the spec: the consume loop over the deliveries of the source topic,
in order of arrival. -/
def consume (gen : Generator) (a : App gen) (deliveries : List (List Char)) : App gen :=
  deliveries.foldl (processDelivery gen) a

/-- The body of the health response, `{"status":"ok"}`. -/
def healthBody : String := "\x7b\x22status\x22:\x22ok\x22\x7d"

/-- Modelled from the spec: the health handler `RunApp` registers (not among the
sources): status 200 and the fixed body, with no dependency checks. -/
def healthHandler : Handler := fun w _ => (w.WriteHeader 200).Write healthBody

/-- The configuration of the integration test. -/
def testConfig : AppConfig :=
  { Port := 8080, RandomSeed := ⟨1, by decide⟩, Brokers := "localhost:9092",
    SourceTopic := "source-topic", SinkTopic := "sink-topic" }

/-- An application of the integration test right after start, with `math/rand` seeded
from the configured random seed. -/
def testApp : App goRand :=
  { config := testConfig, world := World.init, broker := { records := [], up := true },
    rng := goRand.seed goRand.fresh testConfig.RandomSeed }

/-- The application of the integration test with a broker that accepts no send. -/
def testAppDown : App goRand :=
  { testApp with broker := { records := [], up := false } }

/-- The process state after a series of `RegisterEndpoint` calls, each through its own
server value; a call that panics leaves its state to the next one (the panic is
recovered). -/
def registerAll (calls : List (DefaultHTTPServer × String × Option Handler)) (w : World) :
    World :=
  calls.foldl (fun acc c => (c.1.RegisterEndpoint c.2.1 c.2.2 acc).world) w

/-- The process state after the first application of the test process registered its
health endpoint. -/
def worldWithHealth : World :=
  ((NewDefaultHTTPServer 8080).RegisterEndpoint "/health" healthHandler World.init).world

/-- A handler that answers with the given text. -/
def textHandler (body : String) : Handler := fun w _ => w.Write body

/-- The process state after a first server registered a handler for `/a`. -/
def worldWithA : World :=
  ((NewDefaultHTTPServer 8080).RegisterEndpoint "/a" (textHandler "from A") World.init).world

/-- The process state after a handler was registered for `/x` on host `example.com`. -/
def worldWithHostX : World :=
  ((NewDefaultHTTPServer 8080).RegisterEndpoint "example.com/x"
    (textHandler "on example.com") World.init).world

/-- A network on which no port can be bound. -/
def busyNet : Net := fun _ => some "bind: address already in use"

end KafkaProcessor

namespace KafkaProcessor

/-! ## Decimal rendering and reading -/

theorem formatNatAux_fuel (n : Nat) : ∀ (f1 f2 : Nat) (acc : List Char), n < f1 → n < f2 →
    formatNatAux f1 n acc = formatNatAux f2 n [] ++ acc := by
  induction n using Nat.strong_induction_on with
  | _ n ih =>
    intro f1 f2 acc h1 h2
    obtain ⟨g1, rfl⟩ : ∃ g, f1 = g + 1 := ⟨f1 - 1, by omega⟩
    obtain ⟨g2, rfl⟩ : ∃ g, f2 = g + 1 := ⟨f2 - 1, by omega⟩
    unfold formatNatAux
    by_cases hn : n < 10
    · simp [hn]
    · simp only [hn, if_false]
      have hlt : n / 10 < n := by omega
      rw [ih (n / 10) hlt g1 g2 (digitChar (n % 10) :: acc) (by omega) (by omega)]
      rw [ih (n / 10) hlt g2 g2 [digitChar (n % 10)] (by omega) (by omega)]
      simp

theorem formatNat_eq (n : Nat) :
    formatNat n =
      if n < 10 then [digitChar n] else formatNat (n / 10) ++ [digitChar (n % 10)] := by
  unfold formatNat
  by_cases hn : n < 10
  · simp [formatNatAux, hn]
  · rw [formatNatAux]
    simp only [hn, if_false]
    exact formatNatAux_fuel (n / 10) n (n / 10 + 1) _ (by omega) (by omega)

theorem isDigitChar_digitChar (d : Nat) (hd : d < 10) : isDigitChar (digitChar d) = true := by
  interval_cases d <;> decide

theorem digitVal_digitChar (d : Nat) (hd : d < 10) : digitVal (digitChar d) = d := by
  interval_cases d <;> decide

theorem digitChar_eq_zero (d : Nat) (hd : d < 10) (h0 : digitChar d = '0') : d = 0 := by
  interval_cases d <;> first | rfl | exact absurd h0 (by decide)

theorem formatNat_ne_nil (n : Nat) : formatNat n ≠ [] := by
  rw [formatNat_eq]
  by_cases hn : n < 10 <;> simp [hn]

theorem formatNat_digits (n : Nat) : ∀ c ∈ formatNat n, isDigitChar c = true := by
  induction n using Nat.strong_induction_on with
  | _ n ih =>
    intro c hc
    rw [formatNat_eq] at hc
    by_cases hn : n < 10
    · simp only [hn, if_true, List.mem_singleton] at hc
      rw [hc]
      exact isDigitChar_digitChar n hn
    · simp only [hn, if_false, List.mem_append, List.mem_singleton] at hc
      rcases hc with hc | hc
      · exact ih (n / 10) (by omega) c hc
      · rw [hc]
        exact isDigitChar_digitChar (n % 10) (by omega)

theorem digitsValue_append (ds : List Char) (c : Char) :
    digitsValue (ds ++ [c]) = 10 * digitsValue ds + digitVal c := by
  simp [digitsValue, List.foldl_append]

theorem digitsValue_formatNat (n : Nat) : digitsValue (formatNat n) = n := by
  induction n using Nat.strong_induction_on with
  | _ n ih =>
    rw [formatNat_eq]
    by_cases hn : n < 10
    · simp only [hn, if_true]
      simp [digitsValue, digitVal_digitChar n hn]
    · simp only [hn, if_false]
      rw [digitsValue_append, ih (n / 10) (by omega), digitVal_digitChar (n % 10) (by omega)]
      omega

theorem formatNat_head_zero (n : Nat) (h0 : (formatNat n).head? = some '0') : n = 0 := by
  induction n using Nat.strong_induction_on with
  | _ n ih =>
    rw [formatNat_eq] at h0
    by_cases hn : n < 10
    · simp only [hn, if_true, List.head?_cons, Option.some.injEq] at h0
      exact digitChar_eq_zero n hn h0
    · simp only [hn, if_false, List.head?_append] at h0
      have hne := formatNat_ne_nil (n / 10)
      cases hf : formatNat (n / 10) with
      | nil => exact absurd hf hne
      | cons a l =>
        have hz : n / 10 = 0 := ih (n / 10) (by omega) (by simpa [hf] using h0)
        omega

theorem formatNat_zero : formatNat 0 = ['0'] := by decide

theorem parseNat_formatNat (n : Nat) (rest : List Char)
    (hrest : ∀ c, rest.head? = some c → isDigitChar c = false) :
    parseNat (formatNat n ++ rest) = some (n, rest) := by
  have htw : rest.takeWhile isDigitChar = [] := by
    cases rest with
    | nil => rfl
    | cons c cs => simp [List.takeWhile_cons, hrest c rfl]
  have hdw : rest.dropWhile isDigitChar = rest := by
    cases rest with
    | nil => rfl
    | cons c cs => simp [List.dropWhile_cons, hrest c rfl]
  unfold parseNat
  simp only [List.takeWhile_append_of_pos (formatNat_digits n),
    List.dropWhile_append_of_pos (formatNat_digits n), htw, hdw, List.append_nil]
  have hne := formatNat_ne_nil n
  simp only [hne, if_false]
  by_cases hz : (formatNat n).head? = some '0'
  · have h0 := formatNat_head_zero n hz
    subst h0
    simp [formatNat_zero, digitsValue, digitVal]
  · simp [hz, digitsValue_formatNat]

theorem isDigitChar_minus : isDigitChar '-' = false := by decide

theorem parseInt_formatInt (v : Int) (rest : List Char)
    (hrest : ∀ c, rest.head? = some c → isDigitChar c = false) :
    parseInt (formatInt v ++ rest) = some (v, rest) := by
  cases v with
  | ofNat n =>
    have hp := parseNat_formatNat n rest hrest
    have hhead : ∀ l, formatNat n ++ rest ≠ '-' :: l := by
      intro l hl
      have hne := formatNat_ne_nil n
      cases hf : formatNat n with
      | nil => exact hne hf
      | cons a t =>
        have ha := formatNat_digits n a (by simp [hf])
        rw [hf] at hl
        simp only [List.cons_append, List.cons.injEq] at hl
        rw [hl.1] at ha
        exact absurd ha (by decide)
    unfold formatInt
    simp only []
    unfold parseInt
    split
    · rename_i l heq
      exact absurd heq (hhead l)
    · simp [hp]
  | negSucc n =>
    have hp := parseNat_formatNat (n + 1) rest hrest
    simp only [formatInt, List.cons_append, parseInt, hp, Option.map_some']
    simp [Int.negSucc_eq]

/-! ## Message encoding and decoding -/

theorem expectLit_append (lit rest : List Char) : expectLit lit (lit ++ rest) = some rest := by
  unfold expectLit
  simp [List.isPrefixOf_iff_prefix]

theorem skipWs_of_head (cs : List Char) (hc : ∀ c, cs.head? = some c → isWs c = false) :
    skipWs cs = cs := by
  unfold skipWs
  cases cs with
  | nil => rfl
  | cons c t => simp [List.dropWhile_cons, hc c rfl]

theorem isWs_false_of_digit (c : Char) (hd : isDigitChar c = true) : isWs c = false := by
  cases hw : isWs c with
  | false => rfl
  | true =>
    simp only [isWs, Bool.or_eq_true, beq_iff_eq] at hw
    rcases hw with ((hw | hw) | hw) | hw <;> subst hw <;> exact absurd hd (by decide)

theorem formatInt_head (v : Int) (rest : List Char) :
    ∀ c, (formatInt v ++ rest).head? = some c → isWs c = false := by
  intro c hc
  cases v with
  | ofNat n =>
    simp only [formatInt] at hc
    cases hf : formatNat n with
    | nil => exact absurd hf (formatNat_ne_nil n)
    | cons a t =>
      have ha := formatNat_digits n a (by simp [hf])
      rw [hf] at hc
      simp only [List.cons_append, List.head?_cons, Option.some.injEq] at hc
      rw [← hc]
      exact isWs_false_of_digit a ha
  | negSucc n =>
    simp only [formatInt, List.cons_append, List.head?_cons, Option.some.injEq] at hc
    rw [← hc]
    decide

theorem decodeObject_encodeObject (field : List Char) (v : Int) :
    decodeObject field (encodeObject field v) = some v := by
  have hshape : encodeObject field v =
      [lbrace] ++ ((dquote :: field ++ [dquote]) ++ ([':'] ++ (formatInt v ++ [rbrace]))) := by
    simp [encodeObject]
  have h1 : skipWs (encodeObject field v) = encodeObject field v := by
    rw [hshape]
    exact skipWs_of_head _ (by
      intro c hc
      simp only [List.singleton_append, List.head?_cons, Option.some.injEq] at hc
      rw [← hc]
      decide)
  have h2 : skipWs ((dquote :: field ++ [dquote]) ++ ([':'] ++ (formatInt v ++ [rbrace])))
      = (dquote :: field ++ [dquote]) ++ ([':'] ++ (formatInt v ++ [rbrace])) :=
    skipWs_of_head _ (by
      intro c hc
      simp only [List.cons_append, List.head?_cons, Option.some.injEq] at hc
      rw [← hc]
      decide)
  have h3 : skipWs ([':'] ++ (formatInt v ++ [rbrace])) = [':'] ++ (formatInt v ++ [rbrace]) :=
    skipWs_of_head _ (by
      intro c hc
      simp only [List.singleton_append, List.head?_cons, Option.some.injEq] at hc
      rw [← hc]
      decide)
  have h4 : skipWs (formatInt v ++ [rbrace]) = formatInt v ++ [rbrace] :=
    skipWs_of_head _ (formatInt_head v [rbrace])
  have h5 : parseInt (formatInt v ++ [rbrace]) = some (v, [rbrace]) :=
    parseInt_formatInt v [rbrace] (by
      intro c hc
      simp only [List.head?_cons, Option.some.injEq] at hc
      rw [← hc]
      decide)
  have h6 : skipWs [rbrace] = [rbrace] := by decide
  have h7 : expectLit [rbrace] [rbrace] = some [] := by decide
  unfold decodeObject
  rw [h1]
  nth_rewrite 1 [hshape]
  rw [expectLit_append, Option.some_bind, h2, expectLit_append, Option.some_bind, h3,
    expectLit_append, Option.some_bind, h4, h5, Option.some_bind]
  simp only [h6, h7, Option.some_bind]
  simp [skipWs]

theorem toInt64_val (payload : List Char) (v : Int64) :
    toInt64 payload (some v.val) = Except.ok v := by
  unfold toInt64
  simp only [dif_pos v.property]

theorem decodeSourceMessage_encodeSourceMessage (m : SourceMessage) :
    decodeSourceMessage (encodeSourceMessage m) = Except.ok m := by
  unfold decodeSourceMessage encodeSourceMessage
  rw [decodeObject_encodeObject, toInt64_val]

theorem decodeSinkMessage_encodeSinkMessage (m : SinkMessage) :
    decodeSinkMessage (encodeSinkMessage m) = Except.ok m := by
  unfold decodeSinkMessage encodeSinkMessage
  rw [decodeObject_encodeObject, toInt64_val]

theorem decodeSourceMessage_error_payload (payload : List Char) (e : DecodeError)
    (hbad : decodeSourceMessage payload = Except.error e) : e.payload = payload := by
  unfold decodeSourceMessage toInt64 at hbad
  cases hd : decodeObject seedField payload with
  | none =>
    simp only [hd] at hbad
    injection hbad with he
    rw [← he]
  | some n =>
    simp only [hd] at hbad
    by_cases hr : minInt64 ≤ n ∧ n ≤ maxInt64
    · simp [hr] at hbad
    · simp only [hr, dif_neg, not_false_eq_true] at hbad
      injection hbad with he
      rw [← he]

theorem expectLit_some (lit cs r : List Char) (h : expectLit lit cs = some r) :
    cs = lit ++ r := by
  unfold expectLit at h
  by_cases hp : lit.isPrefixOf cs = true
  · simp only [hp, if_true, Option.some.injEq] at h
    rw [List.isPrefixOf_iff_prefix, List.prefix_iff_eq_append] at hp
    rw [← h]
    exact hp.symm
  · simp [hp] at h

theorem skipWs_split (cs : List Char) :
    (cs.takeWhile isWs).all isWs = true ∧ cs = cs.takeWhile isWs ++ skipWs cs :=
  ⟨List.all_takeWhile, (List.takeWhile_append_dropWhile isWs cs).symm⟩

theorem parseNat_some (cs r : List Char) (n : Nat) (h : parseNat cs = some (n, r)) :
    ∃ ds, isJsonNat ds = true ∧ digitsValue ds = n ∧ cs = ds ++ r := by
  unfold parseNat at h
  simp only [] at h
  by_cases h1 : cs.takeWhile isDigitChar = []
  · simp [h1] at h
  · simp only [h1, if_false] at h
    by_cases h2 : (cs.takeWhile isDigitChar).head? = some '0' ∧
        (cs.takeWhile isDigitChar).length ≠ 1
    · simp [h2] at h
    · simp only [h2, if_false, Option.some.injEq, Prod.mk.injEq] at h
      refine ⟨cs.takeWhile isDigitChar, ?_, h.1, ?_⟩
      · unfold isJsonNat
        have hall : (cs.takeWhile isDigitChar).all isDigitChar = true := List.all_takeWhile
        have hne : (cs.takeWhile isDigitChar).isEmpty = false := by
          cases hc : cs.takeWhile isDigitChar with
          | nil => exact absurd hc h1
          | cons a t => rfl
        rw [hall, hne]
        simp only [Bool.not_false, Bool.and_self, Bool.true_and, Bool.or_eq_true,
          decide_eq_true_eq]
        by_cases h0 : (cs.takeWhile isDigitChar).head? = some '0'
        · right
          by_contra hl
          exact h2 ⟨h0, hl⟩
        · left
          exact h0
      · rw [← h.2]
        exact (List.takeWhile_append_dropWhile isDigitChar cs).symm

theorem parseInt_some (cs r : List Char) (v : Int) (h : parseInt cs = some (v, r)) :
    ∃ neg ds, isJsonNat ds = true ∧ jsonIntVal neg ds = v ∧ cs = jsonIntText neg ds ++ r := by
  unfold parseInt at h
  split at h
  · rename_i rest
    simp only [Option.map_eq_some', Prod.mk.injEq] at h
    obtain ⟨⟨n, r2⟩, hp, hv, hr⟩ := h
    simp only at hv hr
    subst hr
    obtain ⟨ds, hds, hval, hcs⟩ := parseNat_some rest r2 n hp
    refine ⟨true, ds, hds, ?_, ?_⟩
    · simp [jsonIntVal, hval, hv]
    · simp [jsonIntText, hcs]
  · simp only [Option.map_eq_some', Prod.mk.injEq] at h
    obtain ⟨⟨n, r2⟩, hp, hv, hr⟩ := h
    simp only at hv hr
    subst hr
    obtain ⟨ds, hds, hval, hcs⟩ := parseNat_some cs r2 n hp
    refine ⟨false, ds, hds, ?_, ?_⟩
    · simp [jsonIntVal, hval, hv]
    · simp [jsonIntText, hcs]

theorem decodeObject_some (field payload : List Char) (v : Int)
    (h : decodeObject field payload = some v) (hr : minInt64 ≤ v ∧ v ≤ maxInt64) :
    MatchesSchema field payload := by
  unfold decodeObject at h
  simp only [Option.bind_eq_some] at h
  obtain ⟨c1, h1, c2, h2, c3, h3, r, h4, c5, h5, h6⟩ := h
  by_cases hend : skipWs c5 = []
  · simp only [hend, if_true, Option.some.injEq] at h6
    obtain ⟨neg, ds, hds, hval, hnum⟩ := parseInt_some (skipWs c3) r.2 r.1 h4
    have e1 := expectLit_some _ _ _ h1
    have e2 := expectLit_some _ _ _ h2
    have e3 := expectLit_some _ _ _ h3
    have e5 := expectLit_some _ _ _ h5
    have s0 := skipWs_split payload
    have s1 := skipWs_split c1
    have s2 := skipWs_split c2
    have s3 := skipWs_split c3
    have s4 := skipWs_split r.2
    have s5 := skipWs_split c5
    refine ⟨payload.takeWhile isWs, c1.takeWhile isWs, c2.takeWhile isWs,
      c3.takeWhile isWs, r.2.takeWhile isWs, c5.takeWhile isWs, neg, ds,
      ⟨s0.1, s1.1, s2.1, s3.1, s4.1, s5.1⟩, hds, ?_, ?_⟩
    · rw [hval, h6]
      exact hr
    · have t5 : c5 = c5.takeWhile isWs := by
        have := s5.2
        rw [hend, List.append_nil] at this
        exact this
      rw [← t5, ← e5, ← s4.2, ← hnum, ← s3.2, ← e3, ← s2.2, ← e2, ← s1.2, ← e1]
      exact s0.2
  · simp [hend] at h6

theorem decodeSourceMessage_ok_schema (payload : List Char) (m : SourceMessage)
    (h : decodeSourceMessage payload = Except.ok m) : MatchesSchema seedField payload := by
  unfold decodeSourceMessage toInt64 at h
  cases hd : decodeObject seedField payload with
  | none => simp [hd] at h
  | some n =>
    simp only [hd] at h
    by_cases hr : minInt64 ≤ n ∧ n ≤ maxInt64
    · exact decodeObject_some seedField payload n hd hr
    · simp [hr] at h

theorem decodeSourceMessage_of_not_schema (payload : List Char)
    (hbad : ¬ MatchesSchema seedField payload) :
    decodeSourceMessage payload = Except.error { payload := payload } := by
  cases hd : decodeSourceMessage payload with
  | ok m => exact absurd (decodeSourceMessage_ok_schema payload m hd) hbad
  | error e =>
    have hp := decodeSourceMessage_error_payload payload e hd
    cases e with
    | mk q =>
      simp only at hp
      rw [hp]

/-- C3: for every source message (any `int64` seed) and every sink message (any `int64`
random number), decoding the encoding of the message succeeds and returns the message
itself. -/
theorem encode_decode_roundtrip :
    (∀ m : SourceMessage, decodeSourceMessage (encodeSourceMessage m) = Except.ok m) ∧
    (∀ m : SinkMessage, decodeSinkMessage (encodeSinkMessage m) = Except.ok m) :=
  ⟨decodeSourceMessage_encodeSourceMessage, decodeSinkMessage_encodeSinkMessage⟩

/-! ## The default router -/

theorem lookup_append_of_some (m : List (String × Handler)) (e : List (String × Handler))
    (q : String) (h0 : Handler) (hq : ServeMux.lookup { m := m } q = some h0) :
    ServeMux.lookup { m := m ++ e } q = some h0 := by
  unfold ServeMux.lookup at hq ⊢
  simp only [List.find?_append]
  cases hf : m.find? (fun x => x.1 == q) with
  | none => simp [hf] at hq
  | some x => simpa [hf] using hq

theorem lookup_append_self (m : List (String × Handler)) (p : String) (h : Handler)
    (hp : ServeMux.lookup { m := m } p = none) :
    ServeMux.lookup { m := m ++ [(p, h)] } p = some h := by
  unfold ServeMux.lookup at hp ⊢
  simp only [List.find?_append]
  cases hf : m.find? (fun x => x.1 == p) with
  | none => simp
  | some x => simp [hf] at hp

theorem lookup_append_ne (m : List (String × Handler)) (p q : String) (h : Handler)
    (hne : q ≠ p) :
    ServeMux.lookup { m := m ++ [(p, h)] } q = ServeMux.lookup { m := m } q := by
  unfold ServeMux.lookup
  simp only [List.find?_append]
  have hp : ¬ (p = q) := fun e => hne e.symm
  cases hf : m.find? (fun x => x.1 == q) with
  | none => simp [hp]
  | some x => simp

theorem lookup_none_not_mem (mux : ServeMux) (p : String) (hp : mux.lookup p = none) :
    p ∉ mux.patterns := by
  unfold ServeMux.lookup at hp
  unfold ServeMux.patterns
  simp only [Option.map_eq_none', List.find?_eq_none] at hp
  intro hmem
  obtain ⟨e, he, hep⟩ := List.mem_map.mp hmem
  exact hp e he (by simp [hep])

theorem handle_fresh (mux : ServeMux) (p : String) (h : Handler) (hne : p ≠ "")
    (hfresh : mux.lookup p = none) :
    mux.Handle p h = Except.ok { m := mux.m ++ [(p, h)] } := by
  unfold ServeMux.Handle
  simp [hne, hfresh]

theorem handle_registered (mux : ServeMux) (p : String) (h0 h : Handler)
    (hreg : mux.lookup p = some h0) :
    ∃ msg, mux.Handle p h = Except.error msg := by
  unfold ServeMux.Handle
  by_cases hp : p = ""
  · exact ⟨"http: invalid pattern", by simp [hp]⟩
  · exact ⟨"http: multiple registrations for " ++ p, by simp [hp, hreg]⟩

theorem handle_patterns_nodup (mux mux1 : ServeMux) (p : String) (h : Handler)
    (hnd : mux.patterns.Nodup) (hok : mux.Handle p h = Except.ok mux1) :
    mux1.patterns.Nodup := by
  unfold ServeMux.Handle at hok
  by_cases hp : p = ""
  · simp [hp] at hok
  · cases hl : mux.lookup p with
    | some h0 => simp [hp, hl] at hok
    | none =>
      simp only [hp, hl, Option.isSome_none, if_false] at hok
      have hnot := lookup_none_not_mem mux p hl
      have hm : mux1 = { m := mux.m ++ [(p, h)] } := by
        injection hok with hm
        exact hm.symm
      subst hm
      unfold ServeMux.patterns at hnd hnot ⊢
      simp only [List.map_append, List.map_cons, List.map_nil]
      refine List.Nodup.append hnd (List.nodup_singleton p) ?_
      intro a ha hap
      rw [List.mem_singleton] at hap
      exact hnot (hap ▸ ha)

theorem handler_host_of_lookup (mux : ServeMux) (host p : String) (h : Handler)
    (hreg : mux.lookup p = some h)
    (hhost : (if mux.hosts then mux.matchPath (host ++ p) else none) = none) :
    mux.handler host p = h := by
  unfold ServeMux.handler
  rw [hhost]
  simp [ServeMux.matchPath, hreg]

theorem shouldRedirect_of_lookup (mux : ServeMux) (host p : String) (h : Handler)
    (hreg : mux.lookup p = some h) : mux.shouldRedirect host p = false := by
  unfold ServeMux.shouldRedirect
  simp [hreg]

theorem handler_of_lookup (mux : ServeMux) (m p : String) (h : Handler)
    (hreg : mux.lookup p = some h) : mux.Handler { method := m, path := p } = h := by
  unfold ServeMux.Handler ServeMux.dispatch
  rw [shouldRedirect_of_lookup mux "" p h hreg]
  unfold ServeMux.handler
  cases hh : mux.hosts <;> simp [ServeMux.matchPath, hreg]

theorem handlerRaw_of_lookup (mux : ServeMux) (r : RawRequest) (h : Handler)
    (hreg : mux.lookup r.path = some h) (hclean : cleanPath r.path = r.path)
    (hhost : (if mux.hosts then mux.matchPath (r.host ++ r.path) else none) = none) :
    mux.HandlerRaw r = h := by
  unfold ServeMux.HandlerRaw ServeMux.dispatch
  rw [hclean, shouldRedirect_of_lookup mux r.host r.path h hreg,
    handler_host_of_lookup mux r.host r.path h hreg hhost]
  simp

/-! ## `RegisterEndpoint` and `Run` -/

theorem registerEndpoint_mux_of_fresh (dhs : DefaultHTTPServer) (p : String) (h : Handler)
    (w : World) (hne : p ≠ "") (hfresh : w.mux.lookup p = none) :
    dhs.RegisterEndpoint p h w =
      Outcome.returned ()
        { dhs.logger.Debug ("Registering handler on endpoint \x27" ++ p ++ "\x27") w with
          mux := { m := w.mux.m ++ [(p, h)] } } := by
  unfold DefaultHTTPServer.RegisterEndpoint HandleFunc Logger.Debug
  simp only []
  rw [handle_fresh w.mux p h hne hfresh]

theorem registerEndpoint_of_registered (dhs : DefaultHTTPServer) (p : String)
    (h0 h : Handler) (w : World) (hreg : w.mux.lookup p = some h0) :
    ∃ msg, dhs.RegisterEndpoint p h w =
      Outcome.panicked msg
        (dhs.logger.Debug ("Registering handler on endpoint \x27" ++ p ++ "\x27") w) := by
  obtain ⟨msg, hmsg⟩ := handle_registered w.mux p h0 h hreg
  refine ⟨msg, ?_⟩
  unfold DefaultHTTPServer.RegisterEndpoint HandleFunc Logger.Debug
  simp only []
  rw [hmsg]

theorem registerEndpoint_patterns_nodup (dhs : DefaultHTTPServer) (p : String)
    (h : Option Handler) (w : World) (hnd : w.mux.patterns.Nodup) :
    (dhs.RegisterEndpoint p h w).world.mux.patterns.Nodup := by
  unfold DefaultHTTPServer.RegisterEndpoint HandleFunc Logger.Debug
  cases h with
  | none => simpa [Outcome.world] using hnd
  | some g =>
    simp only []
    cases hh : w.mux.Handle p (some g) with
    | error msg => simpa [Outcome.world] using hnd
    | ok mux1 =>
      simpa [Outcome.world] using handle_patterns_nodup w.mux mux1 p g hnd hh

theorem registerAll_patterns_nodup
    (calls : List (DefaultHTTPServer × String × Option Handler))
    (w : World) (hnd : w.mux.patterns.Nodup) :
    (registerAll calls w).mux.patterns.Nodup := by
  induction calls generalizing w with
  | nil => simpa [registerAll] using hnd
  | cons c rest ih =>
    have hstep := registerEndpoint_patterns_nodup c.1 c.2.1 c.2.2 w hnd
    simpa [registerAll] using ih _ hstep

theorem registerEndpoint_listens (dhs : DefaultHTTPServer) (p : String)
    (h : Option Handler) (w : World) :
    (dhs.RegisterEndpoint p h w).world.listens = w.listens := by
  unfold DefaultHTTPServer.RegisterEndpoint HandleFunc Logger.Debug
  cases h with
  | none => simp [Outcome.world]
  | some g =>
    simp only []
    cases hh : w.mux.Handle p (some g) <;> simp [Outcome.world]

theorem run_world (dhs : DefaultHTTPServer) (net : Net) (w : World) :
    (dhs.Run net w).world =
      { dhs.logger.Info ("Starting HTTP server on port \x27" ++ String.mk (formatInt dhs.Port)
          ++ "\x27...") w with
        listens := w.listens ++ [dhs.addr] } := by
  unfold DefaultHTTPServer.Run ListenAndServe Logger.Info
  cases hn : net dhs.addr <;> simp [hn, Outcome.world]

/-! ## Claims about the HTTP facade -/

/-- C6, counterexample to the claim as stated, at five inputs.  With `/a` registered,
registering another handler for `/a` does not return, and the request for `/a` is still
answered by the first handler.  On a fresh process, registering a handler for the
empty path does not return, and neither does registering a nil handler for `/x`.
Registering a handler for `//x` returns, but the request `GET //x` is answered with a
redirect to `/x` and not by the handler.  With `example.com/x` registered, registering
a handler for `/x` returns, but the request for `/x` on host `example.com` is answered
by the handler of `example.com/x`. -/
theorem registerEndpoint_any_path_counterexample :
    (((NewDefaultHTTPServer 8080).RegisterEndpoint "/a" (textHandler "second")
        worldWithA).isReturned = false ∧
      (NewDefaultHTTPServer 8080).serve
        ((NewDefaultHTTPServer 8080).RegisterEndpoint "/a" (textHandler "second")
          worldWithA).world
        { method := "GET", path := "/a" } = { status := 200, body := "from A" }) ∧
    ((NewDefaultHTTPServer 8080).RegisterEndpoint "" (textHandler "second")
      World.init).isReturned = false ∧
    ((NewDefaultHTTPServer 8080).RegisterEndpoint "/x" none World.init).isReturned = false ∧
    (((NewDefaultHTTPServer 8080).RegisterEndpoint "//x" (textHandler "second")
        World.init).isReturned = true ∧
      (NewDefaultHTTPServer 8080).serveRaw
        ((NewDefaultHTTPServer 8080).RegisterEndpoint "//x" (textHandler "second")
          World.init).world
        { method := "GET", host := "localhost", path := "//x" } =
        { status := 301, body := "", location := some "/x" }) ∧
    (((NewDefaultHTTPServer 8080).RegisterEndpoint "/x" (textHandler "second")
        worldWithHostX).isReturned = true ∧
      (NewDefaultHTTPServer 8080).serveRaw
        ((NewDefaultHTTPServer 8080).RegisterEndpoint "/x" (textHandler "second")
          worldWithHostX).world
        { method := "GET", host := "example.com", path := "/x" } =
        { status := 200, body := "on example.com" }) := by
  decide

/-- C6, amended: for every non-empty endpoint path `p` that has no handler yet and every
handler `h` that is not nil, `RegisterEndpoint(p, h)` returns; afterwards the registry
maps `p` to `h`, the router matches a request with path `p` to `h` (also once `Run` has
been called), an arriving request whose path is `p` is dispatched to `h` whenever `p`
is a canonical path and no pattern of the request's host matches it, and the handler
registered for every other path is unchanged. -/
theorem registerEndpoint_fresh_dispatch (dhs : DefaultHTTPServer) (p : String)
    (h : Handler) (w : World) (hne : p ≠ "") (hfresh : w.mux.lookup p = none) :
    ∃ w1, dhs.RegisterEndpoint p (some h) w = Outcome.returned () w1 ∧
      w1.mux.lookup p = some h ∧
      (∀ m, w1.mux.Handler { method := m, path := p } = h) ∧
      (∀ m net, (dhs.Run net w1).world.mux.Handler { method := m, path := p } = h) ∧
      (∀ r : RawRequest, r.path = p → cleanPath p = p →
        (if w1.mux.hosts then w1.mux.matchPath (r.host ++ p) else none) = none →
        w1.mux.HandlerRaw r = h ∧
          dhs.serveRaw w1 r =
            (h ResponseWriter.fresh { method := r.method, path := p }).finish) ∧
      (∀ q, q ≠ p → w1.mux.lookup q = w.mux.lookup q) := by
  have hl : ServeMux.lookup { m := w.mux.m ++ [(p, h)] } p = some h :=
    lookup_append_self w.mux.m p h hfresh
  refine ⟨_, registerEndpoint_mux_of_fresh dhs p h w hne hfresh, hl, ?_, ?_, ?_, ?_⟩
  · intro m
    exact handler_of_lookup _ m p h hl
  · intro m net
    rw [run_world]
    exact handler_of_lookup _ m p h hl
  · intro r hr hclean hhost
    subst hr
    have hraw := handlerRaw_of_lookup _ r h hl hclean hhost
    refine ⟨hraw, ?_⟩
    unfold DefaultHTTPServer.serveRaw ServeMux.ServeHTTPRaw
    rw [hraw]
  · intro q hq
    exact lookup_append_ne w.mux.m p q h hq

/-- Witness for C6 (amended): `/health` on a fresh process; the arriving request
`GET /health` on host `localhost` is answered by the handler. -/
theorem registerEndpoint_fresh_dispatch_witness :
    (∃ w1, (NewDefaultHTTPServer 8080).RegisterEndpoint "/health" (some (textHandler "up"))
        World.init = Outcome.returned () w1 ∧
      w1.mux.lookup "/health" = some (textHandler "up") ∧
      (∀ m, w1.mux.Handler { method := m, path := "/health" } = textHandler "up") ∧
      (∀ m net, ((NewDefaultHTTPServer 8080).Run net w1).world.mux.Handler
        { method := m, path := "/health" } = textHandler "up") ∧
      (∀ r : RawRequest, r.path = "/health" → cleanPath "/health" = "/health" →
        (if w1.mux.hosts then w1.mux.matchPath (r.host ++ "/health") else none) = none →
        w1.mux.HandlerRaw r = textHandler "up" ∧
          (NewDefaultHTTPServer 8080).serveRaw w1 r =
            (textHandler "up" ResponseWriter.fresh
              { method := r.method, path := "/health" }).finish) ∧
      (∀ q, q ≠ "/health" → w1.mux.lookup q = World.init.mux.lookup q)) ∧
    cleanPath "/health" = "/health" ∧
    (NewDefaultHTTPServer 8080).serveRaw
      ((NewDefaultHTTPServer 8080).RegisterEndpoint "/health" (some (textHandler "up"))
        World.init).world
      { method := "GET", host := "localhost", path := "/health" } =
      { status := 200, body := "up" } :=
  ⟨registerEndpoint_fresh_dispatch (NewDefaultHTTPServer 8080) "/health" (textHandler "up")
    World.init (by decide) rfl, by decide, by decide⟩

/-- C7, counterexample to the claim as stated: on a network where the port cannot be
bound, `ListenAndServe` returns the bind error, and `Run` returns normally to its
caller without surfacing a failure. -/
theorem run_bind_failure_counterexample :
    busyNet (NewDefaultHTTPServer 8080).addr = some "bind: address already in use" ∧
    ((NewDefaultHTTPServer 8080).Run busyNet World.init).isReturned = true ∧
    ((NewDefaultHTTPServer 8080).Run busyNet World.init).isFailure = false := by
  decide

/-- C7, amended: when the HTTP listener cannot bind the configured port (or fails
later), `Run` has logged its start line and called `ListenAndServe` on its address,
drops the error that call returns, and returns normally to its caller with no result;
the state it leaves does not depend on the error. -/
theorem run_drops_listener_error (dhs : DefaultHTTPServer) (net : Net) (w : World)
    (err : String) (hfail : net dhs.addr = some err) :
    dhs.Run net w =
      Outcome.returned ()
        { dhs.logger.Info ("Starting HTTP server on port \x27" ++
            String.mk (formatInt dhs.Port) ++ "\x27...") w with
          listens := w.listens ++ [dhs.addr] } := by
  unfold DefaultHTTPServer.Run ListenAndServe Logger.Info
  simp [hfail]

/-- Witness for C7 (amended): port 8080 on a network where no port can be bound. -/
theorem run_drops_listener_error_witness :
    busyNet (NewDefaultHTTPServer 8080).addr = some "bind: address already in use" ∧
    (NewDefaultHTTPServer 8080).Run busyNet World.init =
      Outcome.returned ()
        { (NewDefaultHTTPServer 8080).logger.Info ("Starting HTTP server on port \x27" ++
            String.mk (formatInt (NewDefaultHTTPServer 8080).Port) ++ "\x27...") World.init with
          listens := World.init.listens ++ [(NewDefaultHTTPServer 8080).addr] } :=
  ⟨rfl, run_drops_listener_error (NewDefaultHTTPServer 8080) busyNet World.init
    "bind: address already in use" rfl⟩

/-- C8, counterexample to the claim as stated: a handler registered through server A
(port 8080) is served by server B (port 8081), and registering the same path through B
afterwards does not return. -/
theorem registry_per_instance_counterexample :
    (NewDefaultHTTPServer 8081).serve worldWithA { method := "GET", path := "/a" }
      = { status := 200, body := "from A" } ∧
    ((NewDefaultHTTPServer 8081).RegisterEndpoint "/a" (textHandler "from B")
      worldWithA).isReturned = false ∧
    (NewDefaultHTTPServer 8081).serve
      ((NewDefaultHTTPServer 8081).RegisterEndpoint "/a" (textHandler "from B")
        worldWithA).world { method := "GET", path := "/a" }
      = { status := 200, body := "from A" } := by
  decide

/-- C8, amended: the handler registry is the process-wide default router, shared by all
HTTP facade instances: for any two instances A and B created by `NewDefaultHTTPServer`,
a handler registered with `A.RegisterEndpoint(p, h)` (for a non-empty `p` without a
handler) is served by B as well, and registering the same path `p` through B afterwards
fails and leaves the handler of A in place. -/
theorem registry_shared_between_instances (portA portB : Int) (p : String)
    (h h2 : Handler) (w : World) (hne : p ≠ "") (hfresh : w.mux.lookup p = none) :
    ∃ w1, (NewDefaultHTTPServer portA).RegisterEndpoint p h w = Outcome.returned () w1 ∧
      (∀ m, (NewDefaultHTTPServer portB).serve w1 { method := m, path := p }
        = (h ResponseWriter.fresh { method := m, path := p }).finish) ∧
      ((NewDefaultHTTPServer portB).RegisterEndpoint p h2 w1).isReturned = false ∧
      ((NewDefaultHTTPServer portB).RegisterEndpoint p h2 w1).world.mux.lookup p = some h := by
  have hl : ServeMux.lookup { m := w.mux.m ++ [(p, h)] } p = some h :=
    lookup_append_self w.mux.m p h hfresh
  refine ⟨_, registerEndpoint_mux_of_fresh _ p h w hne hfresh, ?_, ?_, ?_⟩
  · intro m
    unfold DefaultHTTPServer.serve ServeMux.ServeHTTP
    rw [handler_of_lookup _ m p h hl]
  · obtain ⟨msg, hmsg⟩ := registerEndpoint_of_registered (NewDefaultHTTPServer portB) p h h2
      { (NewDefaultHTTPServer portA).logger.Debug
          ("Registering handler on endpoint \x27" ++ p ++ "\x27") w with
        mux := { m := w.mux.m ++ [(p, h)] } } hl
    rw [hmsg]
    rfl
  · obtain ⟨msg, hmsg⟩ := registerEndpoint_of_registered (NewDefaultHTTPServer portB) p h h2
      { (NewDefaultHTTPServer portA).logger.Debug
          ("Registering handler on endpoint \x27" ++ p ++ "\x27") w with
        mux := { m := w.mux.m ++ [(p, h)] } } hl
    rw [hmsg]
    exact hl

/-- Witness for C8 (amended): servers on ports 8080 and 8081 and the path `/a`. -/
theorem registry_shared_between_instances_witness :
    ∃ w1, (NewDefaultHTTPServer 8080).RegisterEndpoint "/a" (textHandler "from A")
        World.init = Outcome.returned () w1 ∧
      (∀ m, (NewDefaultHTTPServer 8081).serve w1 { method := m, path := "/a" }
        = (textHandler "from A" ResponseWriter.fresh { method := m, path := "/a" }).finish) ∧
      ((NewDefaultHTTPServer 8081).RegisterEndpoint "/a" (textHandler "from B")
        w1).isReturned = false ∧
      ((NewDefaultHTTPServer 8081).RegisterEndpoint "/a" (textHandler "from B")
        w1).world.mux.lookup "/a" = some (textHandler "from A") :=
  registry_shared_between_instances 8080 8081 "/a" (textHandler "from A")
    (textHandler "from B") World.init (by decide) rfl

/-- C10: for every endpoint path `p` that already has a handler in the shared registry,
a second `RegisterEndpoint(p, h1)`, through any server, does not replace the handler
but panics; the registry is left as it was, so the first handler stays in place; and
the registry never holds one path twice, after this call and after any series of
registrations in a process. -/
theorem registerEndpoint_registered_panics (dhs : DefaultHTTPServer) (p : String)
    (h0 h1 : Handler) (w : World) (hreg : w.mux.lookup p = some h0) :
    (∃ msg w1, dhs.RegisterEndpoint p h1 w = Outcome.panicked msg w1 ∧
      w1.mux = w.mux ∧ w1.mux.lookup p = some h0) ∧
    (w.mux.patterns.Nodup → (dhs.RegisterEndpoint p h1 w).world.mux.patterns.Nodup) ∧
    (∀ calls, (registerAll calls World.init).mux.patterns.Nodup) := by
  refine ⟨?_, ?_, ?_⟩
  · obtain ⟨msg, hmsg⟩ := registerEndpoint_of_registered dhs p h0 h1 w hreg
    exact ⟨msg, _, hmsg, rfl, hreg⟩
  · exact registerEndpoint_patterns_nodup dhs p h1 w
  · intro calls
    exact registerAll_patterns_nodup calls World.init (by simp [World.init, ServeMux.empty,
      ServeMux.patterns])

/-- Witness for C10: the second application of the test process registers `/health`
again, through its own server, after the first one did. -/
theorem registerEndpoint_registered_panics_witness :
    worldWithHealth.mux.lookup "/health" = some healthHandler ∧
    ((∃ msg w1, (NewDefaultHTTPServer 8080).RegisterEndpoint "/health" healthHandler
        worldWithHealth = Outcome.panicked msg w1 ∧
      w1.mux = worldWithHealth.mux ∧ w1.mux.lookup "/health" = some healthHandler) ∧
    (worldWithHealth.mux.patterns.Nodup →
      ((NewDefaultHTTPServer 8080).RegisterEndpoint "/health" healthHandler
        worldWithHealth).world.mux.patterns.Nodup) ∧
    (∀ calls, (registerAll calls World.init).mux.patterns.Nodup)) :=
  ⟨rfl, registerEndpoint_registered_panics (NewDefaultHTTPServer 8080) "/health"
    healthHandler healthHandler worldWithHealth rfl⟩

/-- C9: for every port, `NewDefaultHTTPServer(port)` returns a server whose `Port` is
`port`; `Run` on it hands `http.ListenAndServe` the address made of a colon and the
base-10 rendering of `port` (reading the rendering back gives `port`; 8080 gives
`:8080`), whatever the port is (70000 and -1 are passed on as they are); and a
`RegisterEndpoint` or `Run` before it does not change the address `Run` listens on. -/
theorem newDefaultHTTPServer_port_addr (port : Int) :
    (NewDefaultHTTPServer port).Port = port ∧
    (∀ net w, ((NewDefaultHTTPServer port).Run net w).world.listens =
      w.listens ++ [":" ++ String.mk (formatInt port)]) ∧
    parseInt (formatInt port) = some (port, []) ∧
    (NewDefaultHTTPServer 8080).addr = ":8080" ∧
    ((NewDefaultHTTPServer 70000).Run busyNet World.init).world.listens = [":70000"] ∧
    ((NewDefaultHTTPServer (-1)).Run busyNet World.init).world.listens = [":-1"] ∧
    (∀ p h net w, ((NewDefaultHTTPServer port).Run net
        ((NewDefaultHTTPServer port).RegisterEndpoint p h w).world).world.listens =
      w.listens ++ [":" ++ String.mk (formatInt port)]) ∧
    (∀ net net2 w, ((NewDefaultHTTPServer port).Run net2
        ((NewDefaultHTTPServer port).Run net w).world).world.listens =
      w.listens ++ [":" ++ String.mk (formatInt port), ":" ++ String.mk (formatInt port)]) := by
  refine ⟨rfl, ?_, ?_, by decide, by decide, by decide, ?_, ?_⟩
  · intro net w
    rw [run_world]
    rfl
  · have hp := parseInt_formatInt port [] (by intro c hc; simp at hc)
    simpa using hp
  · intro p h net w
    rw [run_world]
    show _ ++ [_] = _
    rw [registerEndpoint_listens]
    rfl
  · intro net net2 w
    rw [run_world, run_world]
    simp [Logger.Info, DefaultHTTPServer.addr, NewDefaultHTTPServer]

/-! ## The generator -/

theorem seedIter_add (a b : Nat) (x : Int) : seedIter (a + b) x = seedIter b (seedIter a x) := by
  induction a generalizing x with
  | zero => simp [seedIter]
  | succ n ih =>
    have h : n + 1 + b = (n + b) + 1 := by omega
    rw [h]
    simp only [seedIter]
    exact ih (seedrand x)

theorem seedFill_below (n i : Nat) (x : Int) (vec : Fin rngLen → Nat) (j : Fin rngLen)
    (hj : j.val < i) : seedFill n i x vec j = vec j := by
  induction n generalizing i x vec with
  | zero => rfl
  | succ n ih =>
    simp only [seedFill]
    rw [ih (i + 1) _ _ (by omega)]
    unfold setVec
    have hne : ¬ ((j.val : Int) = (i : Int)) := by omega
    simp [hne]

theorem seedFill_agree (n i : Nat) (x : Int) (vec vec2 : Fin rngLen → Nat)
    (hag : ∀ j : Fin rngLen, j.val < i → vec j = vec2 j) (j : Fin rngLen)
    (hj : j.val < i + n) : seedFill n i x vec j = seedFill n i x vec2 j := by
  induction n generalizing i x vec vec2 with
  | zero => exact hag j (by omega)
  | succ n ih =>
    simp only [seedFill]
    apply ih (i + 1)
    · intro k hk
      unfold setVec
      by_cases hki : (k.val : Int) = (i : Int)
      · simp [hki]
      · simp only [hki, if_false]
        exact hag k (by omega)
    · omega

theorem seedFill_get (n i : Nat) (x : Int) (vec : Fin rngLen → Nat) (j : Fin rngLen)
    (h1 : i ≤ j.val) (h2 : j.val < i + n) :
    seedFill n i x vec j = seedWord (seedIter (3 * (j.val - i)) x) j.val := by
  induction n generalizing i x vec with
  | zero => omega
  | succ n ih =>
    simp only [seedFill]
    by_cases hji : j.val = i
    · rw [seedFill_below n (i + 1) _ _ j (by omega)]
      unfold setVec
      have hz : 3 * (j.val - i) = 0 := by omega
      rw [hz]
      simp [hji, seedWord, seedIter]
    · rw [ih (i + 1) _ _ (by omega) (by omega)]
      have hs : 3 * (j.val - i) = 3 + 3 * (j.val - (i + 1)) := by omega
      rw [hs, seedIter_add]
      rfl

theorem seed_vec (rng : rngSource) (seed : Int) (j : Fin rngLen) :
    (rng.Seed seed).vec j = seedWord (seedIter (20 + 3 * j.val) (normSeed seed)) j.val := by
  have hlt : j.val < 0 + rngLen := by
    have := j.isLt
    omega
  have hget := seedFill_get rngLen 0 (seedIter 20 (normSeed seed)) rng.vec j (by omega) hlt
  rw [← seedIter_add, Nat.sub_zero] at hget
  unfold rngSource.Seed
  simp only []
  rw [hget]

theorem seed_pure (rng rng2 : rngSource) (seed : Int) : rng.Seed seed = rng2.Seed seed := by
  have hv : seedFill rngLen 0 (seedIter 20 (normSeed seed)) rng.vec =
      seedFill rngLen 0 (seedIter 20 (normSeed seed)) rng2.vec := by
    funext j
    exact seedFill_agree rngLen 0 _ rng.vec rng2.vec (by intro k hk; omega) j
      (by have := j.isLt; omega)
  unfold rngSource.Seed
  rw [hv]

theorem seedrand_eq (x : Nat) (hx : x < 2147483647) :
    seedrand (x : Int) = (((48271 * x) % 2147483647 : Nat) : Int) := by
  unfold seedrand int32max
  simp only []
  rw [Int.tdiv_eq_ediv (by omega) (by omega), Int.tmod_eq_emod (by omega) (by omega)]
  split_ifs <;> omega

theorem seedIter_eq (k x : Nat) (hx : x < 2147483647) :
    seedIter k (x : Int) = (((48271 ^ k % 2147483647) * x % 2147483647 : Nat) : Int) := by
  induction k generalizing x with
  | zero =>
    simp only [seedIter, pow_zero]
    have h1 : (1 % 2147483647 * x) % 2147483647 = x := by omega
    rw [h1]
  | succ n ih =>
    simp only [seedIter]
    rw [seedrand_eq x hx, ih _ (Nat.mod_lt _ (by omega))]
    congr 1
    rw [← Nat.mul_mod, Nat.mul_mod (48271 ^ (n + 1) % 2147483647) x, Nat.mod_mod,
      ← Nat.mul_mod]
    congr 1
    ring

theorem powMod_eq (a m : Nat) (fuel k : Nat) (hk : k < 2 ^ fuel) :
    powMod a m fuel k = a ^ k % m := by
  induction fuel generalizing k with
  | zero =>
    have h0 : k = 0 := by simpa using hk
    subst h0
    simp [powMod]
  | succ f ih =>
    unfold powMod
    by_cases hz : k = 0
    · subst hz
      simp
    · simp only [hz, if_false]
      have hhalf : k / 2 < 2 ^ f := by
        rw [pow_succ] at hk
        omega
      rw [ih (k / 2) hhalf]
      by_cases he : k % 2 = 0
      · simp only [he, if_true]
        have hk2 : k = k / 2 + k / 2 := by omega
        conv_rhs => rw [hk2, pow_add]
        rw [← Nat.mul_mod]
      · simp only [he, if_false]
        have hk2 : k = k / 2 + k / 2 + 1 := by omega
        conv_rhs => rw [hk2, pow_succ, pow_add]
        rw [← Nat.mul_mod, Nat.mod_mul_mod]

theorem getVec_seed (rng : rngSource) (seed : Int) (i : Nat) (hi : i < rngLen) :
    getVec (rng.Seed seed).vec (i : Int) =
      seedWord (seedIter (20 + 3 * i) (normSeed seed)) i := by
  unfold getVec
  have ht : (i : Int).toNat = i := Int.toNat_ofNat i
  simp only [ht, hi, dite_true]
  exact seed_vec rng seed ⟨i, hi⟩

theorem seed_first_draw (rng : rngSource) (seed : Int) :
    ((rng.Seed seed).Int63).1.val =
      (((seedWord (seedIter 1019 (normSeed seed)) 333 +
        seedWord (seedIter 1838 (normSeed seed)) 606) % two64 &&& rngMask : Nat) : Int) := by
  have h333 := getVec_seed rng seed 333 (by unfold rngLen; omega)
  have h606 := getVec_seed rng seed 606 (by unfold rngLen; omega)
  simp only [Nat.cast_ofNat] at h333 h606
  have htap : (rng.Seed seed).tap = 0 := rfl
  have hfeed : (rng.Seed seed).feed = 334 := by
    unfold rngSource.Seed rngLen rngTap
    norm_num
  have hu : (rng.Seed seed).Uint64.1 =
      (getVec (rng.Seed seed).vec 333 + getVec (rng.Seed seed).vec 606) % two64 := by
    unfold rngSource.Uint64
    simp only [htap, hfeed]
    norm_num [rngLen]
  show (((rng.Seed seed).Uint64.1 &&& rngMask : Nat) : Int) = _
  rw [hu, h333, h606]

theorem getVec_setVec_ne (vec : Fin rngLen → Nat) (i k : Int) (u : Nat) (hne : k ≠ i)
    (hk : 0 ≤ k) : getVec (setVec vec i u) k = getVec vec k := by
  unfold getVec
  by_cases h : k.toNat < rngLen
  · have hc : ¬ (((k.toNat : Nat) : Int) = i) := by
      rw [Int.toNat_of_nonneg hk]
      exact hne
    rw [dif_pos h, dif_pos h]
    unfold setVec
    exact if_neg hc
  · rw [dif_neg h, dif_neg h]

theorem uint64_step (rng : rngSource) (t f : Int) (ht : rng.tap = t + 1) (hf : rng.feed = f + 1)
    (ht0 : 0 ≤ t) (hf0 : 0 ≤ f) :
    rng.Uint64 = ((getVec rng.vec f + getVec rng.vec t) % two64,
      { tap := t, feed := f,
        vec := setVec rng.vec f ((getVec rng.vec f + getVec rng.vec t) % two64) }) := by
  unfold rngSource.Uint64
  have h1 : ¬ (rng.tap - 1 < 0) := by omega
  have h2 : ¬ (rng.feed - 1 < 0) := by omega
  have h3 : rng.tap - 1 = t := by omega
  have h4 : rng.feed - 1 = f := by omega
  rw [if_neg h1, if_neg h2, h3, h4]

theorem uint64_wrap (rng : rngSource) (f : Int) (ht : rng.tap = 0) (hf : rng.feed = f + 1)
    (hf0 : 0 ≤ f) :
    rng.Uint64 = ((getVec rng.vec f + getVec rng.vec 606) % two64,
      { tap := 606, feed := f,
        vec := setVec rng.vec f ((getVec rng.vec f + getVec rng.vec 606) % two64) }) := by
  unfold rngSource.Uint64
  have h1 : rng.tap - 1 < 0 := by omega
  have h2 : ¬ (rng.feed - 1 < 0) := by omega
  have h3 : rng.tap - 1 + (rngLen : Nat) = 606 := by
    unfold rngLen
    omega
  have h4 : rng.feed - 1 = f := by omega
  rw [if_pos h1, if_neg h2, h3, h4]

theorem seed_second_draw (rng : rngSource) (seed : Int) :
    (((rng.Seed seed).Int63).2.Int63).1.val =
      (((seedWord (seedIter 1016 (normSeed seed)) 332 +
        seedWord (seedIter 1835 (normSeed seed)) 605) % two64 &&& rngMask : Nat) : Int) := by
  have h332 := getVec_seed rng seed 332 (by unfold rngLen; omega)
  have h605 := getVec_seed rng seed 605 (by unfold rngLen; omega)
  simp only [Nat.cast_ofNat] at h332 h605
  have htap : (rng.Seed seed).tap = 0 := rfl
  have hfeed : (rng.Seed seed).feed = 333 + 1 := by
    unfold rngSource.Seed rngLen rngTap
    norm_num
  have hfirst := uint64_wrap (rng.Seed seed) 333 htap hfeed (by omega)
  have ht2 : (rng.Seed seed).Uint64.2.tap = 605 + 1 := by
    rw [hfirst]
    norm_num
  have hf2 : (rng.Seed seed).Uint64.2.feed = 332 + 1 := by
    rw [hfirst]
    norm_num
  have hv2 : (rng.Seed seed).Uint64.2.vec = setVec (rng.Seed seed).vec 333
      ((getVec (rng.Seed seed).vec 333 + getVec (rng.Seed seed).vec 606) % two64) := by
    rw [hfirst]
  have hsecond := uint64_step (rng.Seed seed).Uint64.2 605 332 ht2 hf2 (by omega) (by omega)
  show ((((rng.Seed seed).Uint64.2).Uint64.1 &&& rngMask : Nat) : Int) = _
  rw [hsecond]
  simp only []
  rw [hv2, getVec_setVec_ne _ 333 332 _ (by omega) (by omega),
    getVec_setVec_ne _ 333 605 _ (by omega) (by omega), h332, h605]

theorem powMod_1016 : powMod 48271 2147483647 11 1016 = 774605621 := by decide

theorem powMod_1019 : powMod 48271 2147483647 11 1019 = 605303330 := by decide

theorem powMod_1835 : powMod 48271 2147483647 11 1835 = 981807486 := by decide

theorem powMod_1838 : powMod 48271 2147483647 11 1838 = 1344849213 := by decide

theorem normSeed_one : normSeed 1 = 1 := by decide

theorem seedIter_one_1019 : seedIter 1019 1 = 605303330 := by
  have h := seedIter_eq 1019 1 (by omega)
  rw [← powMod_eq 48271 2147483647 11 1019 (by norm_num), powMod_1019] at h
  simpa using h

set_option maxRecDepth 100000 in
theorem seedWord_one_333 : seedWord 605303330 333 = 12004389793001328873 := by decide

theorem seedIter_one_1838 : seedIter 1838 1 = 1344849213 := by
  have h := seedIter_eq 1838 1 (by omega)
  rw [← powMod_eq 48271 2147483647 11 1838 (by norm_num), powMod_1838] at h
  simpa using h

set_option maxRecDepth 100000 in
theorem seedWord_one_606 : seedWord 1344849213 606 = 12019361072656002153 := by decide

theorem seedIter_one_1016 : seedIter 1016 1 = 774605621 := by
  have h := seedIter_eq 1016 1 (by omega)
  rw [← powMod_eq 48271 2147483647 11 1016 (by norm_num), powMod_1016] at h
  simpa using h

set_option maxRecDepth 100000 in
theorem seedWord_one_332 : seedWord 774605621 332 = 13154393021644071241 := by decide

theorem seedIter_one_1835 : seedIter 1835 1 = 981807486 := by
  have h := seedIter_eq 1835 1 (by omega)
  rw [← powMod_eq 48271 2147483647 11 1835 (by norm_num), powMod_1835] at h
  simpa using h

set_option maxRecDepth 100000 in
theorem seedWord_one_605 : seedWord 981807486 605 = 13967016275147633926 := by decide

theorem normSeed_fortyTwo : normSeed 42 = 42 := by decide

theorem seedIter_fortyTwo_1019 : seedIter 1019 42 = 1800419743 := by
  have h := seedIter_eq 1019 42 (by omega)
  rw [← powMod_eq 48271 2147483647 11 1019 (by norm_num), powMod_1019] at h
  simpa using h

set_option maxRecDepth 100000 in
theorem seedWord_fortyTwo_333 : seedWord 1800419743 333 = 11394894889885817146 := by decide

theorem seedIter_fortyTwo_1838 : seedIter 1838 42 = 649092124 := by
  have h := seedIter_eq 1838 42 (by omega)
  rw [← powMod_eq 48271 2147483647 11 1838 (by norm_num), powMod_1838] at h
  simpa using h

set_option maxRecDepth 100000 in
theorem seedWord_fortyTwo_606 : seedWord 649092124 606 = 1269056501200237337 := by decide

/-- The first value `math/rand` draws after `Seed(1)`. -/
theorem first_draw_one (rng : rngSource) : ((rng.Seed 1).Int63).1.val = 5577006791947779410 := by
  rw [seed_first_draw, normSeed_one, seedIter_one_1019, seedIter_one_1838, seedWord_one_333,
    seedWord_one_606]
  decide

/-- The second value `math/rand` draws after `Seed(1)`. -/
theorem second_draw_one (rng : rngSource) :
    (((rng.Seed 1).Int63).2.Int63).1.val = 8674665223082153551 := by
  rw [seed_second_draw, normSeed_one, seedIter_one_1016, seedIter_one_1835, seedWord_one_332,
    seedWord_one_605]
  decide

/-- The first value `math/rand` draws after `Seed(42)`. -/
theorem first_draw_fortyTwo (rng : rngSource) :
    ((rng.Seed 42).Int63).1.val = 3440579354231278675 := by
  rw [seed_first_draw, normSeed_fortyTwo, seedIter_fortyTwo_1019, seedIter_fortyTwo_1838,
    seedWord_fortyTwo_333, seedWord_fortyTwo_606]
  decide

/-! ## The pipeline -/

theorem processDelivery_mux (gen : Generator) (a : App gen) (payload : List Char) :
    (processDelivery gen a payload).world.mux = a.world.mux := by
  unfold processDelivery
  cases hd : decodeSourceMessage payload with
  | error e => rfl
  | ok m =>
    simp only []
    cases hp : a.broker.publish a.config.SinkTopic none
        (encodeSinkMessage { RandomNumber := (transform gen m.Seed a.rng).1 }) <;> rfl

theorem consume_mux (gen : Generator) (a : App gen) (ds : List (List Char)) :
    (consume gen a ds).world.mux = a.world.mux := by
  induction ds generalizing a with
  | nil => rfl
  | cons d rest ih =>
    have hstep := ih (processDelivery gen a d)
    rw [processDelivery_mux] at hstep
    simpa [consume] using hstep

theorem processDelivery_frame (gen : Generator) (a : App gen) (payload : List Char) :
    (processDelivery gen a payload).config = a.config ∧
    (processDelivery gen a payload).broker.up = a.broker.up := by
  unfold processDelivery
  cases hd : decodeSourceMessage payload with
  | error e => exact ⟨rfl, rfl⟩
  | ok m =>
    simp only []
    unfold Broker.publish
    cases hup : a.broker.up <;> simp [hup]

theorem consume_frame (gen : Generator) (a : App gen) (ds : List (List Char)) :
    (consume gen a ds).config = a.config ∧ (consume gen a ds).broker.up = a.broker.up := by
  induction ds generalizing a with
  | nil => exact ⟨rfl, rfl⟩
  | cons d rest ih =>
    have hstep := ih (processDelivery gen a d)
    have hf := processDelivery_frame gen a d
    rw [hf.1, hf.2] at hstep
    simpa [consume] using hstep

theorem consume_append (gen : Generator) (a : App gen) (ds es : List (List Char)) :
    consume gen a (ds ++ es) = consume gen (consume gen a ds) es := by
  simp [consume, List.foldl_append]

theorem processDelivery_error (gen : Generator) (a : App gen) (payload : List Char)
    (e : DecodeError) (hbad : decodeSourceMessage payload = Except.error e) :
    (processDelivery gen a payload).config = a.config ∧
    (processDelivery gen a payload).broker = a.broker ∧
    (processDelivery gen a payload).rng = a.rng := by
  unfold processDelivery
  rw [hbad]
  exact ⟨rfl, rfl, rfl⟩

theorem processDelivery_published (gen : Generator) (a : App gen) (payload : List Char)
    (m : SourceMessage) (hok : decodeSourceMessage payload = Except.ok m)
    (hup : a.broker.up = true) :
    (processDelivery gen a payload).broker.records =
      a.broker.records ++
        [{ topic := a.config.SinkTopic, key := none,
           value := encodeSinkMessage { RandomNumber := (transform gen m.Seed a.rng).1 } }] := by
  unfold processDelivery
  rw [hok]
  simp [Broker.publish, hup]

theorem processDelivery_rejected (gen : Generator) (a : App gen) (payload : List Char)
    (m : SourceMessage) (hok : decodeSourceMessage payload = Except.ok m)
    (hdown : a.broker.up = false) :
    (processDelivery gen a payload).broker = a.broker := by
  unfold processDelivery
  rw [hok]
  simp [Broker.publish, hdown]

theorem processDelivery_core (gen : Generator) (a b : App gen) (payload : List Char)
    (hc : a.config = b.config) (hb : a.broker = b.broker) (hr : a.rng = b.rng) :
    (processDelivery gen a payload).config = (processDelivery gen b payload).config ∧
    (processDelivery gen a payload).broker = (processDelivery gen b payload).broker ∧
    (processDelivery gen a payload).rng = (processDelivery gen b payload).rng := by
  unfold processDelivery
  cases hd : decodeSourceMessage payload with
  | error e => exact ⟨hc, hb, hr⟩
  | ok m =>
    simp only []
    rw [hc, hb, hr]
    cases hp : b.broker.publish b.config.SinkTopic none
        (encodeSinkMessage { RandomNumber := (transform gen m.Seed b.rng).1 }) with
    | error e => exact ⟨rfl, rfl, rfl⟩
    | ok b1 => exact ⟨rfl, rfl, rfl⟩

theorem consume_core (gen : Generator) (a b : App gen) (ds : List (List Char))
    (hc : a.config = b.config) (hb : a.broker = b.broker) (hr : a.rng = b.rng) :
    (consume gen a ds).config = (consume gen b ds).config ∧
    (consume gen a ds).broker = (consume gen b ds).broker ∧
    (consume gen a ds).rng = (consume gen b ds).rng := by
  induction ds generalizing a b with
  | nil => exact ⟨hc, hb, hr⟩
  | cons d rest ih =>
    have hstep := processDelivery_core gen a b d hc hb hr
    exact ih (processDelivery gen a d) (processDelivery gen b d) hstep.1 hstep.2.1 hstep.2.2

theorem encodeSinkMessage_val (x : Int64) (n : Int) (hx : x.val = n) :
    encodeSinkMessage { RandomNumber := x } = encodeObject randomNumberField n := by
  unfold encodeSinkMessage
  rw [hx]

theorem transform_goRand_one (rng : goRand.State) :
    (transform goRand ⟨1, by decide⟩ rng).1.val = 5577006791947779410 :=
  first_draw_one rng

theorem transform_goRand_fortyTwo (rng : goRand.State) :
    (transform goRand ⟨42, by decide⟩ rng).1.val = 3440579354231278675 :=
  first_draw_fortyTwo rng

/-- C1, counterexample to the claim as stated: with a broker that accepts no send, the
application of the integration test processes the delivered source message
`{"Seed":1}`, which decodes, and publishes no message; the failed publish is logged. -/
theorem processDelivery_broker_down_counterexample :
    decodeSourceMessage (encodeSourceMessage { Seed := ⟨1, by decide⟩ }) =
      Except.ok { Seed := ⟨1, by decide⟩ } ∧
    (processDelivery goRand testAppDown
      (encodeSourceMessage { Seed := ⟨1, by decide⟩ })).broker.records = [] ∧
    (processDelivery goRand testAppDown
      (encodeSourceMessage { Seed := ⟨1, by decide⟩ })).world.log =
      [{ level := Level.error, msg := "cannot publish sink message" }] := by
  decide

/-- C1, amended: for every seed `s`, processing one delivered source message `{Seed: s}`
whose publish succeeds publishes exactly one message, on the sink topic and without a
key, and that message is the encoding of, and decodes to, the sink message whose
`RandomNumber` is `transform(s)` (seed the generator with `s`, draw one value).  With
the generator of `math/rand`, as in the test, `transform(1)` is 5577006791947779410
from every generator state, and the one message published for `{Seed: 1}` is
`{"RandomNumber":5577006791947779410}`. -/
theorem processDelivery_publishes_transform (gen : Generator) (a : App gen) (s : Int64)
    (hup : a.broker.up = true) :
    ((processDelivery gen a (encodeSourceMessage { Seed := s })).broker.records =
        a.broker.records ++
          [{ topic := a.config.SinkTopic, key := none,
             value := encodeSinkMessage { RandomNumber := (transform gen s a.rng).1 } }] ∧
      decodeSinkMessage (encodeSinkMessage { RandomNumber := (transform gen s a.rng).1 }) =
        Except.ok { RandomNumber := (transform gen s a.rng).1 }) ∧
    (∀ rng : goRand.State,
      (transform goRand ⟨1, by decide⟩ rng).1.val = 5577006791947779410) ∧
    (∀ b : App goRand, b.broker.up = true →
      (processDelivery goRand b
        (encodeSourceMessage { Seed := ⟨1, by decide⟩ })).broker.records =
        b.broker.records ++
          [{ topic := b.config.SinkTopic, key := none,
             value := "\x7b\x22RandomNumber\x22:5577006791947779410\x7d".toList }]) := by
  refine ⟨⟨?_, decodeSinkMessage_encodeSinkMessage _⟩, transform_goRand_one, ?_⟩
  · exact processDelivery_published gen a _ _ (decodeSourceMessage_encodeSourceMessage _) hup
  · intro b hb
    rw [processDelivery_published goRand b _ _ (decodeSourceMessage_encodeSourceMessage _) hb,
      encodeSinkMessage_val _ _ (transform_goRand_one b.rng)]
    rfl

/-- Witness for C1 (amended): the application of the integration test processes
`{"Seed":1}`. -/
theorem processDelivery_publishes_transform_witness :
    testApp.broker.up = true ∧
    (processDelivery goRand testApp
        (encodeSourceMessage { Seed := ⟨1, by decide⟩ })).broker.records =
      testApp.broker.records ++
        [{ topic := testApp.config.SinkTopic, key := none,
           value := "\x7b\x22RandomNumber\x22:5577006791947779410\x7d".toList }] :=
  ⟨rfl, (processDelivery_publishes_transform goRand testApp ⟨1, by decide⟩ rfl).2.2
    testApp rfl⟩

/-- C4: for every `int64` seed `s`, the transform on the generator of `math/rand` is a
function of `s` alone: two calls `transform(s)` return the same random number (and leave
the same generator state) whatever the generator state they start from, hence whatever
calls to the transform were made in between and whatever `randomSeed` the generator was
configured with.  The generator itself is stateful: drawing once more after
`transform(1)`, without seeding, gives another value. -/
theorem transform_pure (s randomSeed randomSeed2 : Int64) (between : List Int64)
    (rng rng2 : goRand.State) :
    transform goRand s rng = transform goRand s rng2 ∧
    (transform goRand s
        (transformAll goRand between
          (transform goRand s (goRand.seed goRand.fresh randomSeed)).2).2).1 =
      (transform goRand s (goRand.seed goRand.fresh randomSeed)).1 ∧
    (transform goRand s (goRand.seed goRand.fresh randomSeed)).1 =
      (transform goRand s (goRand.seed goRand.fresh randomSeed2)).1 ∧
    (goRand.next (transform goRand ⟨1, by decide⟩ rng).2).1 ≠
      (transform goRand ⟨1, by decide⟩ rng).1 := by
  have hpure : ∀ r1 r2 : goRand.State, transform goRand s r1 = transform goRand s r2 := by
    intro r1 r2
    show (rngSource.Seed r1 s.val).Int63 = (rngSource.Seed r2 s.val).Int63
    rw [seed_pure r1 r2]
  refine ⟨hpure rng rng2, ?_, ?_, ?_⟩
  · rw [hpure _ (goRand.seed goRand.fresh randomSeed)]
  · rw [hpure _ (goRand.seed goRand.fresh randomSeed2)]
  · intro heq
    have hval := congrArg Subtype.val heq
    have h1 : (goRand.next (transform goRand ⟨1, by decide⟩ rng).2).1.val =
        8674665223082153551 := second_draw_one rng
    rw [h1, transform_goRand_one rng] at hval
    omega

/-- C5, counterexample to the claim as stated: with a broker that accepts no send, the
application of the integration test receives a payload that is not JSON and then the
valid delivery `{"Seed": 42}`; the loop goes on, but the valid delivery yields no sink
message. -/
theorem consume_broker_down_counterexample :
    decodeSourceMessage "\x7b\x22Seed\x22: 42\x7d".toList =
      Except.ok { Seed := ⟨42, by decide⟩ } ∧
    (consume goRand testAppDown
      ["not json".toList, "\x7b\x22Seed\x22: 42\x7d".toList]).broker.records = [] := by
  decide

/-- C5, amended: for every sequence of deliveries `pre ++ bad :: post` on the source
topic, where `bad` is not valid JSON or does not match the source schema, decoding `bad`
fails with an error that carries the payload (the decoder is total: an error, never a
panic), the delivery produces no sink message and changes nothing in the broker or the
generator, and the loop goes on: the broker ends up as if `bad` had not been delivered,
and every later valid delivery `{Seed: s}` whose publish succeeds appends exactly one
sink message, the encoding of `transform(s)`, which decodes to it; a later valid
delivery whose publish fails leaves the sink topic as it was. -/
theorem consume_skips_malformed (gen : Generator) (a : App gen)
    (pre post : List (List Char)) (bad : List Char)
    (hbad : ¬ MatchesSchema seedField bad) :
    decodeSourceMessage bad = Except.error { payload := bad } ∧
    ((processDelivery gen (consume gen a pre) bad).broker = (consume gen a pre).broker ∧
      (processDelivery gen (consume gen a pre) bad).rng = (consume gen a pre).rng) ∧
    (consume gen a (pre ++ bad :: post)).broker = (consume gen a (pre ++ post)).broker ∧
    (∀ (later : List (List Char)) (valid : List Char) (s : Int64),
      decodeSourceMessage valid = Except.ok { Seed := s } →
      (consume gen a (pre ++ bad :: later)).broker.up = true →
      (consume gen a (pre ++ bad :: (later ++ [valid]))).broker.records =
          (consume gen a (pre ++ bad :: later)).broker.records ++
            [{ topic := a.config.SinkTopic, key := none,
               value := encodeSinkMessage
                 { RandomNumber :=
                     (transform gen s (consume gen a (pre ++ bad :: later)).rng).1 } }] ∧
        decodeSinkMessage (encodeSinkMessage
            { RandomNumber :=
                (transform gen s (consume gen a (pre ++ bad :: later)).rng).1 }) =
          Except.ok
            { RandomNumber :=
                (transform gen s (consume gen a (pre ++ bad :: later)).rng).1 }) ∧
    (∀ (later : List (List Char)) (valid : List Char) (s : Int64),
      decodeSourceMessage valid = Except.ok { Seed := s } →
      (consume gen a (pre ++ bad :: later)).broker.up = false →
      (consume gen a (pre ++ bad :: (later ++ [valid]))).broker.records =
        (consume gen a (pre ++ bad :: later)).broker.records) ∧
    (∀ s : Int64, decodeSourceMessage (encodeSourceMessage { Seed := s }) =
      Except.ok { Seed := s }) := by
  have hdec := decodeSourceMessage_of_not_schema bad hbad
  have hskip := processDelivery_error gen (consume gen a pre) bad _ hdec
  have happ : ∀ later valid : List (List Char),
      consume gen a (pre ++ bad :: (later ++ valid)) =
        consume gen (consume gen a (pre ++ bad :: later)) valid := by
    intro later valid
    have hl : pre ++ bad :: (later ++ valid) = (pre ++ bad :: later) ++ valid := by simp
    rw [hl, consume_append]
  refine ⟨hdec, ⟨hskip.2.1, hskip.2.2⟩, ?_, ?_, ?_,
    fun s => decodeSourceMessage_encodeSourceMessage _⟩
  · rw [consume_append, consume_append]
    exact (consume_core gen (processDelivery gen (consume gen a pre) bad) (consume gen a pre)
      post hskip.1 hskip.2.1 hskip.2.2).2.1
  · intro later valid s hvalid hup
    refine ⟨?_, decodeSinkMessage_encodeSinkMessage _⟩
    rw [happ later [valid]]
    have hrec := processDelivery_published gen (consume gen a (pre ++ bad :: later)) valid _
      hvalid hup
    rw [(consume_frame gen a (pre ++ bad :: later)).1] at hrec
    exact hrec
  · intro later valid s hvalid hdown
    rw [happ later [valid]]
    exact congrArg Broker.records
      (processDelivery_rejected gen (consume gen a (pre ++ bad :: later)) valid _ hvalid hdown)

/-- Witness for C5 (amended): the application of the integration test receives a payload
that is not JSON and then `{"Seed": 42}`, and publishes
`{"RandomNumber":3440579354231278675}`. -/
theorem consume_skips_malformed_witness :
    ¬ MatchesSchema seedField "not json".toList ∧
    decodeSourceMessage "not json".toList = Except.error { payload := "not json".toList } ∧
    (consume goRand testApp
      ([] ++ "not json".toList :: ([] ++ ["\x7b\x22Seed\x22: 42\x7d".toList]))).broker.records =
      [{ topic := "sink-topic", key := none,
         value := "\x7b\x22RandomNumber\x22:3440579354231278675\x7d".toList }] := by
  have hbad : ¬ MatchesSchema seedField "not json".toList := by
    rintro ⟨w1, w2, w3, w4, w5, w6, neg, ds, _, _, _, hp⟩
    have hmem : lbrace ∈ "not json".toList := by
      rw [hp]
      simp
    exact absurd hmem (by decide)
  have hthm := consume_skips_malformed goRand testApp [] [] "not json".toList hbad
  have hvalid : decodeSourceMessage "\x7b\x22Seed\x22: 42\x7d".toList =
      Except.ok { Seed := ⟨42, by decide⟩ } := by decide
  have hrec := (hthm.2.2.2.1 [] "\x7b\x22Seed\x22: 42\x7d".toList ⟨42, by decide⟩ hvalid
    (by decide)).1
  refine ⟨hbad, hthm.1, ?_⟩
  rw [hrec, encodeSinkMessage_val _ _ (transform_goRand_fortyTwo _)]
  decide

/-- C2: for every request `GET /health`, in every state of the pipeline (whatever the
broker, the generator and the log hold, and after any deliveries, malformed ones
included), the health handler registered on the HTTP facade responds with status 200
and a body that is exactly `{"status":"ok"}`. -/
theorem health_always_ok (gen : Generator) (a : App gen) (dhs : DefaultHTTPServer)
    (deliveries : List (List Char))
    (hreg : a.world.mux.lookup "/health" = some healthHandler) :
    dhs.serve (consume gen a deliveries).world { method := "GET", path := "/health" } =
      { status := 200, body := "\x7b\x22status\x22:\x22ok\x22\x7d" } := by
  unfold DefaultHTTPServer.serve ServeMux.ServeHTTP
  rw [consume_mux, handler_of_lookup _ "GET" "/health" healthHandler hreg]
  rfl

/-- Witness for C2: the application of the integration test, with its health endpoint
registered, its broker down, after a delivery that is not JSON. -/
theorem health_always_ok_witness :
    worldWithHealth.mux.lookup "/health" = some healthHandler ∧
    (NewDefaultHTTPServer 8080).serve
      (consume goRand
        { testApp with world := worldWithHealth, broker := { records := [], up := false } }
        ["not json".toList]).world { method := "GET", path := "/health" } =
      { status := 200, body := "\x7b\x22status\x22:\x22ok\x22\x7d" } :=
  ⟨rfl, health_always_ok goRand
    { testApp with world := worldWithHealth, broker := { records := [], up := false } }
    (NewDefaultHTTPServer 8080) ["not json".toList] rfl⟩

end KafkaProcessor
